import Mathlib

/-! Verification of go-stripe: the checkout workflow and the order queries.

A shallow embedding of `cmd/web/handlers.go` (the payment-confirmation handler)
and `internal/models/models.go` (the data-access layer), followed by theorems
about them.

Conventions of the embedding:

* Go `int` is a 64-bit signed integer; values are `Int`, and arithmetic that can
  leave the range is wrapped with `wrapInt64`.
* `time.Time` is a natural number (a point on the clock); `0` is the zero time.
* The relational store is a record of four tables, each a list of rows in
  insertion order.  The engine is MySQL/MariaDB (the statements use `?`
  placeholders and `LastInsertId`).
* Everything the code cannot decide itself (whether a statement fails, which id
  the store assigns, what the payment processor answers, what the clock reads)
  is an explicit argument.
* `ORDER BY o.created_at desc` names no second column, so the engine is free in
  the order of rows with equal `created_at`, and free to choose differently in
  the query with `LIMIT`.  The database carries one ranking of tied rows for
  each of the two queries; every sorted arrangement of distinct rows is the
  result of some ranking.
-/

namespace GoStripe

/-! ## Machine integers and `strconv.Atoi` -/

/-- Reduction of an integer to the range of a 64-bit signed Go `int`. -/
def wrapInt64 (x : Int) : Int := (x + 2 ^ 63) % 2 ^ 64 - 2 ^ 63

/-- Largest Go `int` on a 64-bit platform. -/
def maxInt64 : Int := 2 ^ 63 - 1

/-- Smallest Go `int` on a 64-bit platform. -/
def minInt64 : Int := -(2 ^ 63)

/-- Outcome of the digit loop of `strconv.ParseUint(s, 10, 64)`. -/
inductive UintScan where
  | value (n : Nat)
  | syntaxError
  | rangeError
  deriving DecidableEq, Repr

/-- The digit loop of `strconv.ParseUint` for base 10 and 64 bits: characters are
consumed left to right, a non-digit is a syntax error, and the loop stops with a
range error as soon as the accumulated value leaves the 64-bit unsigned range. -/
def scanDigits : Nat → List Char → UintScan
  | n, [] => .value n
  | n, c :: cs =>
    if 48 ≤ c.toNat ∧ c.toNat ≤ 57 then
      if n ≥ (2 ^ 64 - 1) / 10 + 1 then .rangeError
      else
        let n1 := n * 10 + (c.toNat - 48)
        if n1 > 2 ^ 64 - 1 then .rangeError else scanDigits n1 cs
    else .syntaxError

/-- The function `strconv.Atoi` on the characters of its argument: the value and
whether the error is nil.  A syntax error gives `0`; a range error gives the
nearest bound of `int`. -/
def atoiChars (cs : List Char) : Int × Bool :=
  let neg : Bool := cs.head? = some '-'
  let body : List Char :=
    match cs with
    | '+' :: rest => rest
    | '-' :: rest => rest
    | _ => cs
  match body with
  | [] => (0, false)
  | _ =>
    match scanDigits 0 body with
    | .syntaxError => (0, false)
    | .rangeError => if neg then (minInt64, false) else (maxInt64, false)
    | .value un =>
      if !neg ∧ un ≥ 2 ^ 63 then (maxInt64, false)
      else if neg ∧ un > 2 ^ 63 then (minInt64, false)
      else (if neg then -(un : Int) else (un : Int), true)

/-- The function `strconv.Atoi`. -/
def Atoi (s : String) : Int × Bool := atoiChars s.toList

/-! ## Data model (`internal/models/models.go`) -/

/-- Points on the clock; `0` is the zero value of `time.Time`. -/
abbrev Time := Nat

/-- Errors that the code passes on to its caller. -/
inductive Error where
  | formParse
  | processor
  | database
  | lastInsertId
  | scanNull
  | noRows
  deriving DecidableEq, Repr

/-- Type `Widget`; also a row of table `widgets`. -/
structure Widget where
  ID : Int
  Name : String
  Description : String
  InventoryLevel : Int
  Price : Int
  Image : String
  IsRecurring : Bool
  PlanID : String
  CreatedAt : Time
  UpdatedAt : Time
  deriving DecidableEq, Repr

/-- Type `Transaction`; also a row of table `transactions`. -/
structure Transaction where
  ID : Int
  Amount : Int
  Currency : String
  LastFour : String
  PaymentIntent : String
  PaymentMethod : String
  ExpiryMonth : Int
  ExpiryYear : Int
  BankReturnCode : String
  TransactionStatusID : Int
  CreatedAt : Time
  UpdatedAt : Time
  deriving DecidableEq, Repr

/-- Type `Customer`; also a row of table `customers`. -/
structure Customer where
  ID : Int
  FirstName : String
  LastName : String
  Email : String
  CreatedAt : Time
  UpdatedAt : Time
  deriving DecidableEq, Repr

/-- Type `Order`: the columns of an order together with the nested widget,
transaction and customer that the joined queries fill in. -/
structure Order where
  ID : Int
  WidgetID : Int
  TransactionID : Int
  CustomerID : Int
  StatusID : Int
  Quantity : Int
  Amount : Int
  CreatedAt : Time
  UpdatedAt : Time
  Widget : Widget
  Transaction : Transaction
  Customer : Customer
  deriving DecidableEq, Repr

/-- A row of table `orders`: the columns written by `InsertOrder`. -/
structure OrderRow where
  ID : Int
  WidgetID : Int
  TransactionID : Int
  CustomerID : Int
  StatusID : Int
  Quantity : Int
  Amount : Int
  CreatedAt : Time
  UpdatedAt : Time
  deriving DecidableEq, Repr

/-- Zero value of `Widget`. -/
def Widget.zero : Widget :=
  { ID := 0, Name := "", Description := "", InventoryLevel := 0, Price := 0, Image := "",
    IsRecurring := false, PlanID := "", CreatedAt := 0, UpdatedAt := 0 }

/-- Zero value of `Transaction`. -/
def Transaction.zero : Transaction :=
  { ID := 0, Amount := 0, Currency := "", LastFour := "", PaymentIntent := "",
    PaymentMethod := "", ExpiryMonth := 0, ExpiryYear := 0, BankReturnCode := "",
    TransactionStatusID := 0, CreatedAt := 0, UpdatedAt := 0 }

/-- Zero value of `Customer`. -/
def Customer.zero : Customer :=
  { ID := 0, FirstName := "", LastName := "", Email := "", CreatedAt := 0, UpdatedAt := 0 }

/-- Zero value of `Order` (the state of `var o Order`). -/
def Order.zero : Order :=
  { ID := 0, WidgetID := 0, TransactionID := 0, CustomerID := 0, StatusID := 0, Quantity := 0,
    Amount := 0, CreatedAt := 0, UpdatedAt := 0, Widget := Widget.zero,
    Transaction := Transaction.zero, Customer := Customer.zero }

/-- Statements that the data-access layer sends to the database. -/
inductive Statement where
  | insertCustomer
  | insertTransaction
  | insertOrder
  | selectOrders
  | selectOrdersPage
  | countOrders
  | selectOrderByID
  | updateOrderStatus
  deriving DecidableEq, Repr

/-- One row of `orders LEFT JOIN widgets LEFT JOIN transactions LEFT JOIN
customers`: a side that matched nothing is `none` (all its columns are NULL). -/
structure JoinedRow where
  o : OrderRow
  w : Option Widget
  t : Option Transaction
  c : Option Customer
  deriving DecidableEq, Repr

/-- Type `DBModel`: the database behind `m.DB`, as its four tables (rows in
insertion order), the statements sent to it so far (oldest first), and the
engine's ranking of rows that tie under `ORDER BY o.created_at desc` (lower rank
first): `tieRank` in the query without `LIMIT`, `tieRankLimit` in the query with
`LIMIT`.  The constant ranking keeps tied rows in table order. -/
structure DBModel where
  widgets : List Widget
  customers : List Customer
  transactions : List Transaction
  orders : List OrderRow
  statements : List Statement
  tieRank : JoinedRow → Nat := fun _ => 0
  tieRankLimit : JoinedRow → Nat := fun _ => 0

/-- What the database answers to an `insert` statement. -/
inductive ExecOutcome where
  | execError (e : Error)
  | lastInsertIdError (id : Int) (e : Error)
  | inserted (id : Int)
  deriving DecidableEq, Repr

/-- Result of a call that can return a value, return an error, or end in a
run-time panic. -/
inductive Result (α : Type) where
  | ok (a : α)
  | err (e : Error)
  | panic
  deriving DecidableEq, Repr

/-- Equality of results of type `Except` is decidable. -/
instance instDecidableEqExcept {ε α : Type} [DecidableEq ε] [DecidableEq α] :
    DecidableEq (Except ε α) := fun a b =>
  match a, b with
  | .ok x, .ok y => if h : x = y then isTrue (by rw [h]) else isFalse (fun h1 => h (by cases h1; rfl))
  | .error x, .error y =>
    if h : x = y then isTrue (by rw [h]) else isFalse (fun h1 => h (by cases h1; rfl))
  | .ok _, .error _ => isFalse (fun h => by cases h)
  | .error _, .ok _ => isFalse (fun h => by cases h)

/-! ## Data-access layer (`internal/models/models.go`) -/

/-- Record a statement as sent to the database. -/
def DBModel.sent (m : DBModel) (s : Statement) : DBModel :=
  { m with statements := m.statements ++ [s] }

/-- Method `InsertCustomer`: one `insert into customers`; the row takes the posted
names and e-mail, the id assigned by the store and two clock readings. -/
def InsertCustomer (m : DBModel) (out : ExecOutcome) (createdAt updatedAt : Time)
    (c : Customer) : Except Error Int × DBModel :=
  let m1 := m.sent .insertCustomer
  let row (id : Int) : Customer :=
    { ID := id, FirstName := c.FirstName, LastName := c.LastName, Email := c.Email,
      CreatedAt := createdAt, UpdatedAt := updatedAt }
  match out with
  | .execError e => (.error e, m1)
  | .lastInsertIdError id e => (.error e, { m1 with customers := m1.customers ++ [row id] })
  | .inserted id => (.ok id, { m1 with customers := m1.customers ++ [row id] })

/-- Method `InsertTransaction`: one `insert into transactions`. -/
def InsertTransaction (m : DBModel) (out : ExecOutcome) (createdAt updatedAt : Time)
    (txn : Transaction) : Except Error Int × DBModel :=
  let m1 := m.sent .insertTransaction
  let row (id : Int) : Transaction :=
    { ID := id, Amount := txn.Amount, Currency := txn.Currency, LastFour := txn.LastFour,
      PaymentIntent := txn.PaymentIntent, PaymentMethod := txn.PaymentMethod,
      ExpiryMonth := txn.ExpiryMonth, ExpiryYear := txn.ExpiryYear,
      BankReturnCode := txn.BankReturnCode, TransactionStatusID := txn.TransactionStatusID,
      CreatedAt := createdAt, UpdatedAt := updatedAt }
  match out with
  | .execError e => (.error e, m1)
  | .lastInsertIdError id e =>
    (.error e, { m1 with transactions := m1.transactions ++ [row id] })
  | .inserted id => (.ok id, { m1 with transactions := m1.transactions ++ [row id] })

/-- Method `InsertOrder`: one `insert into orders`; `created_at` and `updated_at`
are read from the clock, not from the argument. -/
def InsertOrder (m : DBModel) (out : ExecOutcome) (createdAt updatedAt : Time)
    (order : Order) : Except Error Int × DBModel :=
  let m1 := m.sent .insertOrder
  let row (id : Int) : OrderRow :=
    { ID := id, WidgetID := order.WidgetID, TransactionID := order.TransactionID,
      CustomerID := order.CustomerID, StatusID := order.StatusID, Quantity := order.Quantity,
      Amount := order.Amount, CreatedAt := createdAt, UpdatedAt := updatedAt }
  match out with
  | .execError e => (.error e, m1)
  | .lastInsertIdError id e => (.error e, { m1 with orders := m1.orders ++ [row id] })
  | .inserted id => (.ok id, { m1 with orders := m1.orders ++ [row id] })

/-- Right-hand side of a left join for one left row: every matching row of the
table, or a single all-NULL row when nothing matches. -/
def leftMatches {β : Type} (table : List β) (cond : β → Bool) : List (Option β) :=
  match table.filter cond with
  | [] => [none]
  | b :: bs => (b :: bs).map some

/-- The `FROM` clause shared by the three order queries. -/
def joinOrders (m : DBModel) : List JoinedRow :=
  m.orders.flatMap fun o =>
    (leftMatches m.widgets (fun w => w.ID == o.WidgetID)).flatMap fun w =>
      (leftMatches m.transactions (fun t => t.ID == o.TransactionID)).flatMap fun t =>
        (leftMatches m.customers (fun c => c.ID == o.CustomerID)).map fun c =>
          { o := o, w := w, t := t, c := c }

/-- The clause `WHERE w.is_recurring = ?`: a comparison with NULL is not true. -/
def isRecurringIs (orderOrsubs : Int) (r : JoinedRow) : Bool :=
  match r.w with
  | none => false
  | some w => (if w.IsRecurring then (1 : Int) else 0) == orderOrsubs

/-- The clause `ORDER BY o.created_at desc`: later rows first; rows with equal
`created_at` come in the order of the engine's ranking `rank` (lower first), and
rows that tie in both keep their order. -/
def orderByCreatedAtDesc (rank : JoinedRow → Nat) (rows : List JoinedRow) : List JoinedRow :=
  rows.insertionSort
    (fun a b => b.o.CreatedAt < a.o.CreatedAt ∨ (b.o.CreatedAt = a.o.CreatedAt ∧ rank a ≤ rank b))

/-- The clauses `LIMIT ? OFFSET ?` under MySQL: a negative argument makes the
statement fail. -/
def limitOffset {α : Type} (limit offset : Int) (rows : List α) : Option (List α) :=
  if limit < 0 ∨ offset < 0 then none
  else some ((rows.drop offset.toNat).take limit.toNat)

/-- One call of `rows.Scan` (or `row.Scan`) into a fresh `Order`: destinations
are filled left to right, and a NULL column cannot be converted to the `int` or
`string` destination, so the scan stops there with an error. -/
def scanOrder (r : JoinedRow) : Order × Option Error :=
  let o0 : Order :=
    { Order.zero with
      ID := r.o.ID, WidgetID := r.o.WidgetID, TransactionID := r.o.TransactionID,
      CustomerID := r.o.CustomerID, StatusID := r.o.StatusID, Quantity := r.o.Quantity,
      Amount := r.o.Amount, CreatedAt := r.o.CreatedAt, UpdatedAt := r.o.UpdatedAt }
  match r.w with
  | none => (o0, some .scanNull)
  | some w =>
    let o1 : Order := { o0 with Widget := { Widget.zero with ID := w.ID, Name := w.Name } }
    match r.t with
    | none => (o1, some .scanNull)
    | some t =>
      let o2 : Order :=
        { o1 with
          Transaction :=
            { Transaction.zero with
              ID := t.ID, Amount := t.Amount, Currency := t.Currency, LastFour := t.LastFour,
              ExpiryMonth := t.ExpiryMonth, ExpiryYear := t.ExpiryYear,
              PaymentIntent := t.PaymentIntent, BankReturnCode := t.BankReturnCode } }
      match r.c with
      | none => (o2, some .scanNull)
      | some c =>
        ({ o2 with
           Customer :=
             { Customer.zero with
               ID := c.ID, FirstName := c.FirstName, LastName := c.LastName,
               Email := c.Email } }, none)

/-- The loop `for rows.Next()`: every row is scanned and appended; the first scan
error ends the call. -/
def scanRows : List JoinedRow → Except Error (List Order)
  | [] => .ok []
  | r :: rs =>
    match scanOrder r with
    | (_, some e) => .error e
    | (o, none) =>
      match scanRows rs with
      | .error e => .error e
      | .ok os => .ok (o :: os)

/-- The variable `orderOrsubs`: `0` for orders, `1` for subscriptions, and no
value for any other order type. -/
def orderOrsubsOf (orderType : String) : Option Int :=
  if orderType = "order" then some 0
  else if orderType = "subscription" then some 1
  else none

/-- Method `GetAllOrders`. -/
def GetAllOrders (m : DBModel) (queryFault : Option Error) (orderType : String) :
    Except Error (List Order) × DBModel :=
  match orderOrsubsOf orderType with
  | none => (.ok [], m)
  | some orderOrsubs =>
    let m1 := m.sent .selectOrders
    match queryFault with
    | some e => (.error e, m1)
    | none =>
      match scanRows
          (orderByCreatedAtDesc m.tieRank ((joinOrders m).filter (isRecurringIs orderOrsubs))) with
      | .error e => (.error e, m1)
      | .ok orders => (.ok orders, m1)

/-- The `FROM` and `WHERE` clauses of the count query:
`orders o LEFT JOIN widgets w ... WHERE w.is_recurring = ?`. -/
def countedRows (m : DBModel) (orderOrsubs : Int) : List (OrderRow × Option Widget) :=
  (m.orders.flatMap fun o =>
    (leftMatches m.widgets (fun w => w.ID == o.WidgetID)).map fun w => (o, w)).filter
    fun p =>
      match p.2 with
      | none => false
      | some w => (if w.IsRecurring then (1 : Int) else 0) == orderOrsubs

/-- Method `GetAllOrdersPaginated`: the page query, then the count query, then
`totalRecords / pageSize` (Go division truncates toward zero and panics on a zero
divisor).  The quotient of a non-negative count cannot leave the `int` range. -/
def GetAllOrdersPaginated (m : DBModel) (pageFault countFault : Option Error)
    (orderType : String) (pageSize page : Int) : Result (List Order × Int × Int) × DBModel :=
  let offset := wrapInt64 ((page - 1) * pageSize)
  match orderOrsubsOf orderType with
  | none => (.ok ([], 0, 0), m)
  | some orderOrsubs =>
    let m1 := m.sent .selectOrdersPage
    match pageFault with
    | some e => (.err e, m1)
    | none =>
      match limitOffset pageSize offset
          (orderByCreatedAtDesc m.tieRankLimit
            ((joinOrders m).filter (isRecurringIs orderOrsubs))) with
      | none => (.err .database, m1)
      | some rows =>
        match scanRows rows with
        | .error e => (.err e, m1)
        | .ok orders =>
          let m2 := m1.sent .countOrders
          match countFault with
          | some e => (.err e, m2)
          | none =>
            let totalRecords : Int := ((countedRows m orderOrsubs).length : Int)
            if pageSize = 0 then (.panic, m2)
            else (.ok (orders, Int.tdiv totalRecords pageSize, totalRecords), m2)

/-- Method `GetOrderByID`: `QueryRowContext` keeps the first row of the result;
the order is returned as far as the scan filled it, together with the error. -/
def GetOrderByID (m : DBModel) (queryFault : Option Error) (id : Int) :
    (Order × Option Error) × DBModel :=
  let m1 := m.sent .selectOrderByID
  match queryFault with
  | some e => ((Order.zero, some e), m1)
  | none =>
    match (joinOrders m).filter (fun r => r.o.ID == id) with
    | [] => ((Order.zero, some .noRows), m1)
    | r :: _ => (scanOrder r, m1)

/-- Method `UpdateOrderStatus`: `update orders set status_id = ? where id = ?`. -/
def UpdateOrderStatus (m : DBModel) (execFault : Option Error) (id statusID : Int) :
    Option Error × DBModel :=
  let m1 := m.sent .updateOrderStatus
  match execFault with
  | some e => (some e, m1)
  | none =>
    (none,
      { m1 with
        orders := m1.orders.map fun o => if o.ID = id then { o with StatusID := statusID } else o })

/-! ## Payment-confirmation handler (`cmd/web/handlers.go`) -/

/-- Form values (`url.Values`): keys with their values, in the order posted. -/
abbrev Values := List (String × String)

/-- Method `Get` of `url.Values` on the field `r.Form`, which is nil (`none`)
until the form has been parsed: the first value of the key, or the empty string. -/
def formGet (form : Option Values) (key : String) : String :=
  match form with
  | none => ""
  | some v =>
    match v.find? (fun p => p.1 == key) with
    | some p => p.2
    | none => ""

/-- An HTTP request: the fields it carries (`posted`), whether reading them
reports an error (`malformed`), and the field `Form`, nil until `ParseForm` ran. -/
structure Request where
  posted : Values
  malformed : Bool
  Form : Option Values
  deriving DecidableEq, Repr

/-- Method `ParseForm` of `http.Request`: fills `r.Form` when it is nil (also
when it reports an error) and is idempotent afterwards. -/
def ParseForm (r : Request) : Request × Option Error :=
  match r.Form with
  | some _ => (r, none)
  | none => ({ r with Form := some r.posted }, if r.malformed then some .formParse else none)

/-- A charge of a payment intent (processor type). -/
structure Charge where
  ID : String
  deriving DecidableEq, Repr

/-- A payment intent as returned by the processor: `Charges` is the pointer
`pi.Charges` (nil when `none`) with its list `Data`. -/
structure PaymentIntent where
  Amount : Int
  Charges : Option (List Charge)
  deriving DecidableEq, Repr

/-- The card of a payment method (processor type). -/
structure PaymentMethodCard where
  Last4 : String
  ExpMonth : Int
  ExpYear : Int
  deriving DecidableEq, Repr

/-- A payment method as returned by the processor: `Card` is the pointer
`pm.Card` (nil when `none`). -/
structure PaymentMethod where
  Card : Option PaymentMethodCard
  deriving DecidableEq, Repr

/-- The two read operations of package `cards` against the payment processor. -/
structure Processor where
  RetrievePaymentIntent : String → Except Error PaymentIntent
  GetPaymentMethod : String → Except Error PaymentMethod

/-- Type `TransactionData`. -/
structure TransactionData where
  FirstName : String
  LastName : String
  Email : String
  PaymentIntentID : String
  PaymentMethodID : String
  PaymentAmount : Int
  PaymentCurrency : String
  LastFour : String
  ExpiryMonth : Int
  ExpiryYear : Int
  BackReturnCode : String
  deriving DecidableEq, Repr

/-- Calls made to the payment processor. -/
inductive Lookup where
  | paymentIntent (id : String)
  | paymentMethod (id : String)
  deriving DecidableEq, Repr

/-- Type `application`, as far as the handler uses it: the database, the
session, the two logs and the calls made to the processor so far. -/
structure application where
  DB : DBModel
  Session : List (String × TransactionData)
  errorLog : List Error
  infoLog : List Int
  lookups : List Lookup

/-- The steps of the checkout sequence. -/
inductive Step where
  | formParse
  | paymentIntentLookup
  | paymentMethodLookup
  | customerInsert
  | transactionInsert
  | orderInsert
  deriving DecidableEq, Repr

/-- How a call of `GetTransactionData` ends: a value, the error of one step, or
a run-time panic. -/
inductive TxnResult where
  | ok (txnData : TransactionData)
  | failed (s : Step) (e : Error)
  | panicked
  deriving DecidableEq, Repr

/-- Method `GetTransactionData`: parse the form, read the posted fields, look
up the payment intent and the payment method, and assemble the data.
`pm.Card.Last4` dereferences `pm.Card` and `pi.Charges.Data[0]` indexes the
charge list; a nil pointer or an empty list is a run-time panic. -/
def GetTransactionData (app : application) (card : Processor) (r : Request) :
    TxnResult × application × Request :=
  match ParseForm r with
  | (r1, some err) => (.failed .formParse err, { app with errorLog := app.errorLog ++ [err] }, r1)
  | (r1, none) =>
    let firstName := formGet r1.Form "first_name"
    let lastName := formGet r1.Form "last_name"
    let email := formGet r1.Form "cardholder_email"
    let paymentIntent := formGet r1.Form "payment_intent"
    let paymentMethod := formGet r1.Form "payment_method"
    let paymentAmount := formGet r1.Form "payment_amount"
    let paymentCurrency := formGet r1.Form "payment_currency"
    let amount := (Atoi paymentAmount).1
    let app1 : application := { app with lookups := app.lookups ++ [.paymentIntent paymentIntent] }
    match card.RetrievePaymentIntent paymentIntent with
    | .error err =>
      (.failed .paymentIntentLookup err, { app1 with errorLog := app1.errorLog ++ [err] }, r1)
    | .ok pi =>
      let app2 : application := { app1 with lookups := app1.lookups ++ [.paymentMethod paymentMethod] }
      match card.GetPaymentMethod paymentMethod with
      | .error err =>
        (.failed .paymentMethodLookup err, { app2 with errorLog := app2.errorLog ++ [err] }, r1)
      | .ok pm =>
        match pm.Card with
        | none => (.panicked, app2, r1)
        | some pmCard =>
          let lastFour := pmCard.Last4
          let expiryMonth := pmCard.ExpMonth
          let expiryYear := pmCard.ExpYear
          match pi.Charges with
          | none => (.panicked, app2, r1)
          | some [] => (.panicked, app2, r1)
          | some (charge :: _) =>
            (.ok
              { FirstName := firstName, LastName := lastName, Email := email,
                PaymentIntentID := paymentIntent, PaymentMethodID := paymentMethod,
                PaymentAmount := amount, PaymentCurrency := paymentCurrency,
                LastFour := lastFour, ExpiryMonth := wrapInt64 expiryMonth,
                ExpiryYear := wrapInt64 expiryYear, BackReturnCode := charge.ID },
              app2, r1)

/-- Method `SaveCustomer`. -/
def SaveCustomer (app : application) (out : ExecOutcome) (createdAt updatedAt : Time)
    (firstName lastName email : String) : Except Error Int × application :=
  let customer : Customer :=
    { Customer.zero with FirstName := firstName, LastName := lastName, Email := email }
  match InsertCustomer app.DB out createdAt updatedAt customer with
  | (.error err, db) => (.error err, { app with DB := db })
  | (.ok id, db) => (.ok id, { app with DB := db })

/-- Method `SaveTransaction`. -/
def SaveTransaction (app : application) (out : ExecOutcome) (createdAt updatedAt : Time)
    (txn : Transaction) : Except Error Int × application :=
  match InsertTransaction app.DB out createdAt updatedAt txn with
  | (.error err, db) => (.error err, { app with DB := db })
  | (.ok id, db) => (.ok id, { app with DB := db })

/-- Method `SaveOrder`. -/
def SaveOrder (app : application) (out : ExecOutcome) (createdAt updatedAt : Time)
    (order : Order) : Except Error Int × application :=
  match InsertOrder app.DB out createdAt updatedAt order with
  | (.error err, db) => (.error err, { app with DB := db })
  | (.ok id, db) => (.ok id, { app with DB := db })

/-- Method `Put` of the session manager: the key is bound to the value, replacing
an earlier binding. -/
def sessionPut (session : List (String × TransactionData)) (key : String)
    (val : TransactionData) : List (String × TransactionData) :=
  (key, val) :: session.filter (fun p => p.1 != key)

/-- What the world outside the handler does during one request: the answers of
the payment processor, the answers of the database to the three inserts, and the
successive readings of the clock. -/
structure Env where
  card : Processor
  insertCustomer : ExecOutcome
  insertTransaction : ExecOutcome
  insertOrder : ExecOutcome
  clock : Nat → Time

/-- How a call of `PaymentSucceeded` ends: at the redirect, at the early return
after a failed step, or in a run-time panic. -/
inductive Exit where
  | redirected
  | failed (s : Step) (e : Error)
  | panicked
  deriving DecidableEq, Repr

/-- State after a call of `PaymentSucceeded`: the application, the request, the
redirect written to the response (target and status code) and the exit taken. -/
structure Run where
  app : application
  request : Request
  redirect : Option (String × Nat)
  exit : Exit

/-- Method `PaymentSucceeded`.  The product id is read from `r.Form` on entry,
before `GetTransactionData` parses the form. -/
def PaymentSucceeded (app : application) (env : Env) (r : Request) : Run :=
  let widgetID := (Atoi (formGet r.Form "product_id")).1
  match GetTransactionData app env.card r with
  | (.panicked, app1, r1) => { app := app1, request := r1, redirect := none, exit := .panicked }
  | (.failed s err, app1, r1) =>
    { app := { app1 with errorLog := app1.errorLog ++ [err] }, request := r1, redirect := none,
      exit := .failed s err }
  | (.ok txnData, app1, r1) =>
    match SaveCustomer app1 env.insertCustomer (env.clock 0) (env.clock 1)
        txnData.FirstName txnData.LastName txnData.Email with
    | (.error err, app2) =>
      { app := { app2 with errorLog := app2.errorLog ++ [err] }, request := r1,
        redirect := none, exit := .failed .customerInsert err }
    | (.ok customerID, app2) =>
      let app3 : application := { app2 with infoLog := app2.infoLog ++ [customerID] }
      let txn : Transaction :=
        { Transaction.zero with
          Amount := txnData.PaymentAmount, Currency := txnData.PaymentCurrency,
          LastFour := txnData.LastFour, ExpiryMonth := txnData.ExpiryMonth,
          ExpiryYear := txnData.ExpiryYear, PaymentIntent := txnData.PaymentIntentID,
          PaymentMethod := txnData.PaymentMethodID, BankReturnCode := txnData.BackReturnCode,
          TransactionStatusID := 2 }
      match SaveTransaction app3 env.insertTransaction (env.clock 2) (env.clock 3) txn with
      | (.error err, app4) =>
        { app := { app4 with errorLog := app4.errorLog ++ [err] }, request := r1,
          redirect := none, exit := .failed .transactionInsert err }
      | (.ok txnID, app4) =>
        let order : Order :=
          { Order.zero with
            WidgetID := widgetID, TransactionID := txnID, CustomerID := customerID,
            StatusID := 1, Quantity := 1, Amount := txnData.PaymentAmount,
            CreatedAt := env.clock 4, UpdatedAt := env.clock 5 }
        match SaveOrder app4 env.insertOrder (env.clock 6) (env.clock 7) order with
        | (.error err, app5) =>
          { app := { app5 with errorLog := app5.errorLog ++ [err] }, request := r1,
            redirect := none, exit := .failed .orderInsert err }
        | (.ok _, app5) =>
          { app := { app5 with Session := sessionPut app5.Session "receipt" txnData },
            request := r1, redirect := some ("/receipt", 303), exit := .redirected }

/-! ## Vocabulary of the statements about the order queries -/

/-- The columns of table `orders` held by a scanned `Order`. -/
def Order.columns (o : Order) : OrderRow :=
  { ID := o.ID, WidgetID := o.WidgetID, TransactionID := o.TransactionID,
    CustomerID := o.CustomerID, StatusID := o.StatusID, Quantity := o.Quantity,
    Amount := o.Amount, CreatedAt := o.CreatedAt, UpdatedAt := o.UpdatedAt }

/-- The order type that selects widgets with the given recurring flag. -/
def typeName (recurring : Bool) : String := if recurring then "subscription" else "order"

/-- The stored orders whose widget has the given recurring flag, in table order. -/
def ordersOfType (m : DBModel) (recurring : Bool) : List OrderRow :=
  m.orders.filter fun o =>
    m.widgets.any fun w => w.ID == o.WidgetID && w.IsRecurring == recurring

/-- Primary keys: no two rows of a referenced table share an id. -/
def uniqueKeys (m : DBModel) : Prop :=
  (m.widgets.map (fun w => w.ID)).Nodup ∧
  (m.transactions.map (fun t => t.ID)).Nodup ∧
  (m.customers.map (fun c => c.ID)).Nodup

instance (m : DBModel) : Decidable (uniqueKeys m) := by
  unfold uniqueKeys
  infer_instance

/-- References resolve: every order that has a widget row also has its
transaction row and its customer row. -/
def referencesResolve (m : DBModel) : Prop :=
  ∀ o ∈ m.orders, (∃ w ∈ m.widgets, w.ID = o.WidgetID) →
    (∃ t ∈ m.transactions, t.ID = o.TransactionID) ∧
    (∃ c ∈ m.customers, c.ID = o.CustomerID)

instance (m : DBModel) : Decidable (referencesResolve m) := by
  unfold referencesResolve
  infer_instance

/-- The joined row of an order when keys are unique: each side is the one
matching row, if any. -/
def joinRow (m : DBModel) (o : OrderRow) : JoinedRow :=
  { o := o,
    w := m.widgets.find? (fun w => w.ID == o.WidgetID),
    t := m.transactions.find? (fun t => t.ID == o.TransactionID),
    c := m.customers.find? (fun c => c.ID == o.CustomerID) }

/-! ## Vocabulary of the statements about the checkout sequence -/

/-- An insert answered with the error `e`: the statement itself failed, or the
id of the row it wrote could not be read. -/
def insertFails (out : ExecOutcome) (e : Error) : Prop :=
  out = .execError e ∨ ∃ id : Int, out = .lastInsertIdError id e

/-- Form parsing and both processor lookups succeed for the request, and the
answers carry a card and a first charge, so that the posted and retrieved data
can be assembled. -/
def lookupsSucceed (env : Env) (r : Request) : Prop :=
  (ParseForm r).2 = none ∧
  ∃ (pi : PaymentIntent) (pm : PaymentMethod) (pmCard : PaymentMethodCard) (charge : Charge)
    (rest : List Charge),
    env.card.RetrievePaymentIntent (formGet (ParseForm r).1.Form "payment_intent") = .ok pi ∧
    env.card.GetPaymentMethod (formGet (ParseForm r).1.Form "payment_method") = .ok pm ∧
    pm.Card = some pmCard ∧ pi.Charges = some (charge :: rest)

/-- Step `k` of the checkout sequence fails with the error `e`, every earlier
step having succeeded.  The condition speaks of the request and of the answers
of the processor and the database only, not of the handler. -/
def stepFails (env : Env) (r : Request) (k : Step) (e : Error) : Prop :=
  match k with
  | .formParse => (ParseForm r).2 = some e
  | .paymentIntentLookup =>
    (ParseForm r).2 = none ∧
    env.card.RetrievePaymentIntent (formGet (ParseForm r).1.Form "payment_intent") = .error e
  | .paymentMethodLookup =>
    (ParseForm r).2 = none ∧
    (∃ pi : PaymentIntent,
      env.card.RetrievePaymentIntent (formGet (ParseForm r).1.Form "payment_intent") =
        .ok pi) ∧
    env.card.GetPaymentMethod (formGet (ParseForm r).1.Form "payment_method") = .error e
  | .customerInsert => lookupsSucceed env r ∧ insertFails env.insertCustomer e
  | .transactionInsert =>
    lookupsSucceed env r ∧ (∃ id : Int, env.insertCustomer = .inserted id) ∧
    insertFails env.insertTransaction e
  | .orderInsert =>
    lookupsSucceed env r ∧ (∃ id : Int, env.insertCustomer = .inserted id) ∧
    (∃ id : Int, env.insertTransaction = .inserted id) ∧ insertFails env.insertOrder e

/-! ## Sample data -/

/-- A processor that knows one payment intent of amount 2000 with one charge
and one card payment method. -/
def sampleCard : Processor :=
  { RetrievePaymentIntent := fun _ => .ok { Amount := 2000, Charges := some [{ ID := "ch_1" }] },
    GetPaymentMethod := fun _ =>
      .ok { Card := some { Last4 := "4242", ExpMonth := 12, ExpYear := 2030 } } }

/-- An environment in which every step succeeds; the store assigns the ids 7, 8
and 9. -/
def sampleEnv : Env :=
  { card := sampleCard, insertCustomer := .inserted 7, insertTransaction := .inserted 8,
    insertOrder := .inserted 9, clock := fun n => 100 + n }

/-- The environment `sampleEnv` with a failing transaction insert. -/
def sampleEnvTxnFails : Env :=
  { sampleEnv with insertTransaction := .execError .database }

/-- A widget table with one one-off product (id 3) and one subscription (id 4). -/
def sampleWidgets : List Widget :=
  [{ Widget.zero with ID := 3, Name := "Widget", Price := 1000 },
   { Widget.zero with ID := 4, Name := "Plan", Price := 2000, IsRecurring := true }]

/-- An application whose store holds the sample widgets and nothing else. -/
def sampleApp : application :=
  { DB := { widgets := sampleWidgets, customers := [], transactions := [], orders := [],
            statements := [] },
    Session := [], errorLog := [], infoLog := [], lookups := [] }

/-- The request of the specification example, as the server hands it to the
handler: amount 1000, currency usd, product 3, form not parsed yet. -/
def sampleRequest : Request :=
  { posted :=
      [("first_name", "Ada"), ("last_name", "Lovelace"), ("cardholder_email", "ada@example.com"),
       ("payment_intent", "pi_1"), ("payment_method", "pm_1"), ("payment_amount", "1000"),
       ("payment_currency", "usd"), ("product_id", "3")],
    malformed := false, Form := none }


/-- A store with two customers, three transactions, three orders of the one-off
widget (created at 10, 30 and 20) and one order of the subscription. -/
def sampleStore : DBModel :=
  { widgets := sampleWidgets,
    customers :=
      [{ Customer.zero with ID := 1, FirstName := "Ada" },
       { Customer.zero with ID := 2, FirstName := "Bob" }],
    transactions :=
      [{ Transaction.zero with ID := 1, Amount := 1000 },
       { Transaction.zero with ID := 2, Amount := 1000 },
       { Transaction.zero with ID := 3, Amount := 1000 },
       { Transaction.zero with ID := 4, Amount := 2000 }],
    orders :=
      [{ ID := 1, WidgetID := 3, TransactionID := 1, CustomerID := 1, StatusID := 1,
         Quantity := 1, Amount := 1000, CreatedAt := 10, UpdatedAt := 10 },
       { ID := 2, WidgetID := 3, TransactionID := 2, CustomerID := 2, StatusID := 1,
         Quantity := 1, Amount := 1000, CreatedAt := 30, UpdatedAt := 30 },
       { ID := 3, WidgetID := 3, TransactionID := 3, CustomerID := 1, StatusID := 1,
         Quantity := 1, Amount := 1000, CreatedAt := 20, UpdatedAt := 20 },
       { ID := 4, WidgetID := 4, TransactionID := 4, CustomerID := 2, StatusID := 1,
         Quantity := 1, Amount := 2000, CreatedAt := 25, UpdatedAt := 25 }],
    statements := [] }

/-- A store with one order of the one-off widget whose transaction id 99 matches no
transaction row. -/
def danglingTransactionStore : DBModel :=
  { widgets := sampleWidgets,
    customers := [{ Customer.zero with ID := 1, FirstName := "Ada" }],
    transactions := [],
    orders :=
      [{ ID := 1, WidgetID := 3, TransactionID := 99, CustomerID := 1, StatusID := 1,
         Quantity := 1, Amount := 1000, CreatedAt := 10, UpdatedAt := 10 }],
    statements := [] }

/-- A store with one order of the one-off widget whose customer id 99 matches no
customer row. -/
def danglingCustomerStore : DBModel :=
  { widgets := sampleWidgets,
    customers := [],
    transactions := [{ Transaction.zero with ID := 1, Amount := 1000 }],
    orders :=
      [{ ID := 1, WidgetID := 3, TransactionID := 1, CustomerID := 99, StatusID := 1,
         Quantity := 1, Amount := 1000, CreatedAt := 10, UpdatedAt := 10 }],
    statements := [] }

/-- A processor like `sampleCard` whose payment method is not a card: the
pointer `pm.Card` is nil. -/
def sampleCardWithoutCard : Processor :=
  { RetrievePaymentIntent := fun _ => .ok { Amount := 2000, Charges := some [{ ID := "ch_1" }] },
    GetPaymentMethod := fun _ => .ok { Card := none } }

/-- A store with three orders of the one-off widget, the orders 1 and 2 both
created at 10 and the order 3 at 20, on an engine that, in the query with
`LIMIT`, puts the tied order with the higher id first. -/
def tiedStore : DBModel :=
  { widgets := sampleWidgets,
    customers := [{ Customer.zero with ID := 1, FirstName := "Ada" }],
    transactions :=
      [{ Transaction.zero with ID := 1, Amount := 1000 },
       { Transaction.zero with ID := 2, Amount := 1000 },
       { Transaction.zero with ID := 3, Amount := 1000 }],
    orders :=
      [{ ID := 1, WidgetID := 3, TransactionID := 1, CustomerID := 1, StatusID := 1,
         Quantity := 1, Amount := 1000, CreatedAt := 10, UpdatedAt := 10 },
       { ID := 2, WidgetID := 3, TransactionID := 2, CustomerID := 1, StatusID := 1,
         Quantity := 1, Amount := 1000, CreatedAt := 10, UpdatedAt := 10 },
       { ID := 3, WidgetID := 3, TransactionID := 3, CustomerID := 1, StatusID := 1,
         Quantity := 1, Amount := 1000, CreatedAt := 20, UpdatedAt := 20 }],
    statements := [],
    tieRankLimit := fun r => (10 - r.o.ID).toNat }

/-- The sample request with a body that cannot be parsed. -/
def sampleRequestMalformed : Request :=
  { sampleRequest with malformed := true }

/-- The environment `sampleEnv` with a failing payment-intent lookup. -/
def sampleEnvIntentFails : Env :=
  { sampleEnv with
    card := { sampleCard with RetrievePaymentIntent := fun _ => .error .processor } }

/-- The environment `sampleEnv` with a failing payment-method lookup. -/
def sampleEnvMethodFails : Env :=
  { sampleEnv with card := { sampleCard with GetPaymentMethod := fun _ => .error .processor } }

/-- The environment `sampleEnv` with a failing customer insert. -/
def sampleEnvCustomerFails : Env :=
  { sampleEnv with insertCustomer := .execError .database }

/-- The environment `sampleEnv` with an order insert that writes its row but
cannot report the id. -/
def sampleEnvOrderFails : Env :=
  { sampleEnv with insertOrder := .lastInsertIdError 9 .lastInsertId }

/-! ## Theorems: the checkout workflow -/

theorem GetTransactionData_frame (app : application) (card : Processor) (r : Request) :
    (GetTransactionData app card r).2.1.DB = app.DB ∧
    (GetTransactionData app card r).2.1.Session = app.Session ∧
    (GetTransactionData app card r).2.1.infoLog = app.infoLog ∧
    (GetTransactionData app card r).2.2 = (ParseForm r).1 := by
  unfold GetTransactionData
  rcases hp : ParseForm r with ⟨r1, _ | e⟩
  · simp only
    cases hpi : card.RetrievePaymentIntent (formGet r1.Form "payment_intent") with
    | error e => simp
    | ok pi =>
      simp only
      cases hpm : card.GetPaymentMethod (formGet r1.Form "payment_method") with
      | error e => simp
      | ok pm =>
        simp only
        cases hc : pm.Card with
        | none => simp
        | some pmCard =>
          simp only
          cases hch : pi.Charges with
          | none => simp
          | some l =>
            cases l with
            | nil => simp
            | cons c cs => simp
  · simp

theorem GetTransactionData_ok (app : application) (card : Processor) (r : Request)
    (txnData : TransactionData) (h : (GetTransactionData app card r).1 = .ok txnData) :
    (ParseForm r).2 = none ∧
    ∃ (pi : PaymentIntent) (pm : PaymentMethod) (pmCard : PaymentMethodCard) (charge : Charge)
      (rest : List Charge),
      card.RetrievePaymentIntent (formGet (ParseForm r).1.Form "payment_intent") = .ok pi ∧
      card.GetPaymentMethod (formGet (ParseForm r).1.Form "payment_method") = .ok pm ∧
      pm.Card = some pmCard ∧ pi.Charges = some (charge :: rest) ∧
      txnData =
        { FirstName := formGet (ParseForm r).1.Form "first_name",
          LastName := formGet (ParseForm r).1.Form "last_name",
          Email := formGet (ParseForm r).1.Form "cardholder_email",
          PaymentIntentID := formGet (ParseForm r).1.Form "payment_intent",
          PaymentMethodID := formGet (ParseForm r).1.Form "payment_method",
          PaymentAmount := (Atoi (formGet (ParseForm r).1.Form "payment_amount")).1,
          PaymentCurrency := formGet (ParseForm r).1.Form "payment_currency",
          LastFour := pmCard.Last4, ExpiryMonth := wrapInt64 pmCard.ExpMonth,
          ExpiryYear := wrapInt64 pmCard.ExpYear, BackReturnCode := charge.ID } ∧
      (GetTransactionData app card r).2.1.lookups =
        app.lookups ++
          [.paymentIntent (formGet (ParseForm r).1.Form "payment_intent"),
           .paymentMethod (formGet (ParseForm r).1.Form "payment_method")] ∧
      (GetTransactionData app card r).2.1.errorLog = app.errorLog := by
  unfold GetTransactionData at h ⊢
  rcases hp : ParseForm r with ⟨r1, _ | e⟩
  · rw [hp] at h
    simp only at h ⊢
    cases hpi : card.RetrievePaymentIntent (formGet r1.Form "payment_intent") with
    | error e => rw [hpi] at h; simp at h
    | ok pi =>
      rw [hpi] at h
      simp only at h ⊢
      cases hpm : card.GetPaymentMethod (formGet r1.Form "payment_method") with
      | error e => rw [hpm] at h; simp at h
      | ok pm =>
        rw [hpm] at h
        simp only at h ⊢
        cases hc : pm.Card with
        | none => rw [hc] at h; simp at h
        | some pmCard =>
          rw [hc] at h
          simp only at h ⊢
          cases hch : pi.Charges with
          | none => rw [hch] at h; simp at h
          | some l =>
            cases l with
            | nil => rw [hch] at h; simp at h
            | cons c cs =>
              rw [hch] at h
              simp only [TxnResult.ok.injEq] at h
              refine ⟨trivial, pi, pm, pmCard, c, cs, rfl, rfl, hc, hch, h.symm, ?_, ?_⟩ <;> simp
  · rw [hp] at h
    simp at h

theorem GetTransactionData_failed (app : application) (card : Processor) (r : Request)
    (k : Step) (e : Error) (h : (GetTransactionData app card r).1 = .failed k e) :
    (GetTransactionData app card r).2.1.errorLog = app.errorLog ++ [e] ∧
    ((k = .formParse ∧ (GetTransactionData app card r).2.1.lookups = app.lookups) ∨
     (k = .paymentIntentLookup ∧
        (GetTransactionData app card r).2.1.lookups =
          app.lookups ++ [.paymentIntent (formGet (ParseForm r).1.Form "payment_intent")]) ∨
     (k = .paymentMethodLookup ∧
        (GetTransactionData app card r).2.1.lookups =
          app.lookups ++
            [.paymentIntent (formGet (ParseForm r).1.Form "payment_intent"),
             .paymentMethod (formGet (ParseForm r).1.Form "payment_method")])) := by
  unfold GetTransactionData at h ⊢
  rcases hp : ParseForm r with ⟨r1, _ | e1⟩
  · rw [hp] at h
    simp only at h ⊢
    cases hpi : card.RetrievePaymentIntent (formGet r1.Form "payment_intent") with
    | error e2 =>
      rw [hpi] at h
      simp only [TxnResult.failed.injEq] at h
      obtain ⟨rfl, rfl⟩ := h
      simp
    | ok pi =>
      rw [hpi] at h
      simp only at h ⊢
      cases hpm : card.GetPaymentMethod (formGet r1.Form "payment_method") with
      | error e2 =>
        rw [hpm] at h
        simp only [TxnResult.failed.injEq] at h
        obtain ⟨rfl, rfl⟩ := h
        simp
      | ok pm =>
        rw [hpm] at h
        simp only at h ⊢
        cases hc : pm.Card with
        | none => rw [hc] at h; simp at h
        | some pmCard =>
          rw [hc] at h
          simp only at h ⊢
          cases hch : pi.Charges with
          | none => rw [hch] at h; simp at h
          | some l =>
            cases l with
            | nil => rw [hch] at h; simp at h
            | cons c cs => rw [hch] at h; simp at h
  · rw [hp] at h
    simp only [TxnResult.failed.injEq] at h
    obtain ⟨rfl, rfl⟩ := h
    simp

theorem PaymentSucceeded_redirected (app : application) (env : Env) (r : Request)
    (h : (PaymentSucceeded app env r).exit = .redirected) :
    ∃ (txnData : TransactionData) (customerID txnID orderID : Int),
      (GetTransactionData app env.card r).1 = .ok txnData ∧
      env.insertCustomer = .inserted customerID ∧
      env.insertTransaction = .inserted txnID ∧
      env.insertOrder = .inserted orderID ∧
      (PaymentSucceeded app env r).app.DB.customers =
        app.DB.customers ++
          [{ ID := customerID, FirstName := txnData.FirstName, LastName := txnData.LastName,
             Email := txnData.Email, CreatedAt := env.clock 0, UpdatedAt := env.clock 1 }] ∧
      (PaymentSucceeded app env r).app.DB.transactions =
        app.DB.transactions ++
          [{ ID := txnID, Amount := txnData.PaymentAmount, Currency := txnData.PaymentCurrency,
             LastFour := txnData.LastFour, PaymentIntent := txnData.PaymentIntentID,
             PaymentMethod := txnData.PaymentMethodID, ExpiryMonth := txnData.ExpiryMonth,
             ExpiryYear := txnData.ExpiryYear, BankReturnCode := txnData.BackReturnCode,
             TransactionStatusID := 2, CreatedAt := env.clock 2, UpdatedAt := env.clock 3 }] ∧
      (PaymentSucceeded app env r).app.DB.orders =
        app.DB.orders ++
          [{ ID := orderID, WidgetID := (Atoi (formGet r.Form "product_id")).1,
             TransactionID := txnID, CustomerID := customerID, StatusID := 1, Quantity := 1,
             Amount := txnData.PaymentAmount, CreatedAt := env.clock 6,
             UpdatedAt := env.clock 7 }] ∧
      (PaymentSucceeded app env r).app.Session = sessionPut app.Session "receipt" txnData ∧
      (PaymentSucceeded app env r).redirect = some ("/receipt", 303) := by
  have hf := GetTransactionData_frame app env.card r
  unfold PaymentSucceeded at h ⊢
  rcases hG : GetTransactionData app env.card r with ⟨res, app1, r1⟩
  rw [hG] at h hf
  simp only at hf
  cases res with
  | failed s e => simp at h
  | panicked => simp at h
  | ok txnData =>
    cases hc : env.insertCustomer with
    | execError e => simp [SaveCustomer, InsertCustomer, hc] at h
    | lastInsertIdError id e => simp [SaveCustomer, InsertCustomer, hc] at h
    | inserted customerID =>
      cases ht : env.insertTransaction with
      | execError e =>
        simp [SaveCustomer, InsertCustomer, SaveTransaction, InsertTransaction, hc, ht] at h
      | lastInsertIdError id e =>
        simp [SaveCustomer, InsertCustomer, SaveTransaction, InsertTransaction, hc, ht] at h
      | inserted txnID =>
        cases ho : env.insertOrder with
        | execError e =>
          simp [SaveCustomer, InsertCustomer, SaveTransaction, InsertTransaction, SaveOrder,
            InsertOrder, hc, ht, ho] at h
        | lastInsertIdError id e =>
          simp [SaveCustomer, InsertCustomer, SaveTransaction, InsertTransaction, SaveOrder,
            InsertOrder, hc, ht, ho] at h
        | inserted orderID =>
          simp [SaveCustomer, InsertCustomer, SaveTransaction, InsertTransaction, SaveOrder,
            InsertOrder, hc, ht, ho, DBModel.sent, hf.1, hf.2.1, Customer.zero,
            Transaction.zero, Order.zero]

theorem PaymentSucceeded_redirects (app : application) (env : Env) (r : Request)
    (pi : PaymentIntent) (pm : PaymentMethod) (pmCard : PaymentMethodCard) (charge : Charge)
    (rest : List Charge) (customerID txnID orderID : Int)
    (hp : (ParseForm r).2 = none)
    (hpi : env.card.RetrievePaymentIntent (formGet (ParseForm r).1.Form "payment_intent") =
      .ok pi)
    (hpm : env.card.GetPaymentMethod (formGet (ParseForm r).1.Form "payment_method") = .ok pm)
    (hc : pm.Card = some pmCard) (hch : pi.Charges = some (charge :: rest))
    (h1 : env.insertCustomer = .inserted customerID)
    (h2 : env.insertTransaction = .inserted txnID)
    (h3 : env.insertOrder = .inserted orderID) :
    (PaymentSucceeded app env r).exit = .redirected := by
  unfold PaymentSucceeded GetTransactionData
  rcases hpf : ParseForm r with ⟨r1, e⟩
  rw [hpf] at hp hpi hpm
  simp only at hp hpi hpm
  subst hp
  simp [hpi, hpm, hc, hch, SaveCustomer, InsertCustomer, SaveTransaction, InsertTransaction,
    SaveOrder, InsertOrder, h1, h2, h3]

/-- Claim C1: in every run of PaymentSucceeded that reaches the redirect (form
parsing, both processor lookups and the three inserts succeeded), each of the
three inserts returned an id, the store gained exactly one customer row, one
transaction row and one order row carrying those ids, the widget table is
untouched, and the new order row references the returned transaction id and
customer id. -/
theorem C1_successful_checkout_rows (app : application) (env : Env) (r : Request)
    (h : (PaymentSucceeded app env r).exit = .redirected) :
    ∃ (customerID txnID orderID : Int) (c : Customer) (t : Transaction) (o : OrderRow),
      env.insertCustomer = .inserted customerID ∧
      env.insertTransaction = .inserted txnID ∧
      env.insertOrder = .inserted orderID ∧
      (PaymentSucceeded app env r).app.DB.customers = app.DB.customers ++ [c] ∧
      (PaymentSucceeded app env r).app.DB.transactions = app.DB.transactions ++ [t] ∧
      (PaymentSucceeded app env r).app.DB.orders = app.DB.orders ++ [o] ∧
      (PaymentSucceeded app env r).app.DB.widgets = app.DB.widgets ∧
      c.ID = customerID ∧ t.ID = txnID ∧ o.ID = orderID ∧
      o.TransactionID = txnID ∧ o.CustomerID = customerID := by
  have hf := GetTransactionData_frame app env.card r
  unfold PaymentSucceeded at h ⊢
  rcases hG : GetTransactionData app env.card r with ⟨res, app1, r1⟩
  rw [hG] at h hf
  simp only at hf
  cases res with
  | failed s e => simp at h
  | panicked => simp at h
  | ok txnData =>
    cases hc : env.insertCustomer with
    | execError e => simp [SaveCustomer, InsertCustomer, hc] at h
    | lastInsertIdError id e => simp [SaveCustomer, InsertCustomer, hc] at h
    | inserted customerID =>
      cases ht : env.insertTransaction with
      | execError e => simp [SaveCustomer, InsertCustomer, SaveTransaction, InsertTransaction, hc, ht] at h
      | lastInsertIdError id e =>
        simp [SaveCustomer, InsertCustomer, SaveTransaction, InsertTransaction, hc, ht] at h
      | inserted txnID =>
        cases ho : env.insertOrder with
        | execError e =>
          simp [SaveCustomer, InsertCustomer, SaveTransaction, InsertTransaction, SaveOrder,
            InsertOrder, hc, ht, ho] at h
        | lastInsertIdError id e =>
          simp [SaveCustomer, InsertCustomer, SaveTransaction, InsertTransaction, SaveOrder,
            InsertOrder, hc, ht, ho] at h
        | inserted orderID =>
          simp [SaveCustomer, InsertCustomer, SaveTransaction, InsertTransaction, SaveOrder,
            InsertOrder, hc, ht, ho, DBModel.sent, hf.1]

/-- Witness for C1 on the sample request: the run reaches the redirect and the
store gains the customer 7, the transaction 8 and the order 9. -/
theorem C1_successful_checkout_rows_witness :
    (PaymentSucceeded sampleApp sampleEnv sampleRequest).exit = .redirected ∧
    ∃ (customerID txnID orderID : Int) (c : Customer) (t : Transaction) (o : OrderRow),
      sampleEnv.insertCustomer = .inserted customerID ∧
      sampleEnv.insertTransaction = .inserted txnID ∧
      sampleEnv.insertOrder = .inserted orderID ∧
      (PaymentSucceeded sampleApp sampleEnv sampleRequest).app.DB.customers =
        sampleApp.DB.customers ++ [c] ∧
      (PaymentSucceeded sampleApp sampleEnv sampleRequest).app.DB.transactions =
        sampleApp.DB.transactions ++ [t] ∧
      (PaymentSucceeded sampleApp sampleEnv sampleRequest).app.DB.orders =
        sampleApp.DB.orders ++ [o] ∧
      (PaymentSucceeded sampleApp sampleEnv sampleRequest).app.DB.widgets =
        sampleApp.DB.widgets ∧
      c.ID = customerID ∧ t.ID = txnID ∧ o.ID = orderID ∧
      o.TransactionID = txnID ∧ o.CustomerID = customerID :=
  ⟨by decide, C1_successful_checkout_rows sampleApp sampleEnv sampleRequest (by decide)⟩

/-- Claim C2, evaluated on the request of the specification example as the
server hands it to the handler (payment_amount 1000, currency usd, product_id 3,
form not parsed yet): the checkout succeeds and the inserted order has amount
1000 and quantity 1, but its widget id is 0 and not the posted 3, because
the product id is read from the form before the form is parsed. -/
theorem C2_widget_id_read_before_parse :
    formGet (some sampleRequest.posted) "product_id" = "3" ∧
    formGet (some sampleRequest.posted) "payment_amount" = "1000" ∧
    formGet (some sampleRequest.posted) "payment_currency" = "usd" ∧
    sampleRequest.Form = none ∧
    (PaymentSucceeded sampleApp sampleEnv sampleRequest).exit = .redirected ∧
    (PaymentSucceeded sampleApp sampleEnv sampleRequest).app.DB.orders =
      [{ ID := 9, WidgetID := 0, TransactionID := 8, CustomerID := 7, StatusID := 1,
         Quantity := 1, Amount := 1000, CreatedAt := 106, UpdatedAt := 107 }] := by
  decide

/-- Claim C6, counterexample: on the sample request the processor reports a
payment intent of amount 2000 while the form posts payment_amount 1000; the
checkout succeeds and the inserted transaction and order carry the amount 1000,
not the amount of the payment intent. -/
theorem C6_counterexample :
    (PaymentSucceeded sampleApp sampleEnv sampleRequest).exit = .redirected ∧
    ∃ (pi : PaymentIntent) (t : Transaction) (o : OrderRow),
      sampleEnv.card.RetrievePaymentIntent
        (formGet (ParseForm sampleRequest).1.Form "payment_intent") = .ok pi ∧
      (PaymentSucceeded sampleApp sampleEnv sampleRequest).app.DB.transactions =
        sampleApp.DB.transactions ++ [t] ∧
      (PaymentSucceeded sampleApp sampleEnv sampleRequest).app.DB.orders =
        sampleApp.DB.orders ++ [o] ∧
      pi.Amount = 2000 ∧ t.Amount = 1000 ∧ o.Amount = 1000 ∧ t.Amount ≠ pi.Amount :=
  ⟨by decide, { Amount := 2000, Charges := some [{ ID := "ch_1" }] }, _, _, rfl, rfl, rfl,
    by decide, by decide, by decide, by decide⟩

/-- Claim C6, amended: in every run of PaymentSucceeded that reaches the
redirect, the store gains one transaction row and one order row whose Amount is
the value that strconv.Atoi gives for the posted payment_amount field (0 when
the field is not a decimal integer), whatever amount the payment intent of the
processor carries. -/
theorem C6_amount_from_form (app : application) (env : Env) (r : Request)
    (h : (PaymentSucceeded app env r).exit = .redirected) :
    ∃ (t : Transaction) (o : OrderRow),
      (PaymentSucceeded app env r).app.DB.transactions = app.DB.transactions ++ [t] ∧
      (PaymentSucceeded app env r).app.DB.orders = app.DB.orders ++ [o] ∧
      t.Amount = (Atoi (formGet (ParseForm r).1.Form "payment_amount")).1 ∧
      o.Amount = (Atoi (formGet (ParseForm r).1.Form "payment_amount")).1 := by
  obtain ⟨txnData, customerID, txnID, orderID, hG, -, -, -, -, hT, hO, -, -⟩ :=
    PaymentSucceeded_redirected app env r h
  obtain ⟨-, pi, pm, pmCard, charge, rest, -, -, -, -, htd, -, -⟩ :=
    GetTransactionData_ok app env.card r txnData hG
  refine ⟨_, _, hT, hO, ?_, ?_⟩ <;> simp [htd]

/-- Witness for the amended C6 on the sample request. -/
theorem C6_amount_from_form_witness :
    (PaymentSucceeded sampleApp sampleEnv sampleRequest).exit = .redirected ∧
    ∃ (t : Transaction) (o : OrderRow),
      (PaymentSucceeded sampleApp sampleEnv sampleRequest).app.DB.transactions =
        sampleApp.DB.transactions ++ [t] ∧
      (PaymentSucceeded sampleApp sampleEnv sampleRequest).app.DB.orders =
        sampleApp.DB.orders ++ [o] ∧
      t.Amount = (Atoi (formGet (ParseForm sampleRequest).1.Form "payment_amount")).1 ∧
      o.Amount = (Atoi (formGet (ParseForm sampleRequest).1.Form "payment_amount")).1 :=
  ⟨by decide, C6_amount_from_form sampleApp sampleEnv sampleRequest (by decide)⟩

theorem PaymentSucceeded_failed_frame (app : application) (env : Env) (r : Request)
    (k : Step) (e : Error) (h : (PaymentSucceeded app env r).exit = .failed k e) :
    (PaymentSucceeded app env r).app.Session = app.Session ∧
    (PaymentSucceeded app env r).redirect = none ∧
    e ∈ (PaymentSucceeded app env r).app.errorLog ∧
    (PaymentSucceeded app env r).app.DB.widgets = app.DB.widgets ∧
    (k = .formParse →
      (PaymentSucceeded app env r).app.lookups = app.lookups ∧
      (PaymentSucceeded app env r).app.DB = app.DB) ∧
    (k = .paymentIntentLookup →
      (PaymentSucceeded app env r).app.lookups =
        app.lookups ++ [.paymentIntent (formGet (ParseForm r).1.Form "payment_intent")] ∧
      (PaymentSucceeded app env r).app.DB = app.DB) ∧
    (k = .paymentMethodLookup →
      (PaymentSucceeded app env r).app.lookups =
        app.lookups ++
          [.paymentIntent (formGet (ParseForm r).1.Form "payment_intent"),
           .paymentMethod (formGet (ParseForm r).1.Form "payment_method")] ∧
      (PaymentSucceeded app env r).app.DB = app.DB) ∧
    (k = .customerInsert →
      (PaymentSucceeded app env r).app.DB.statements =
        app.DB.statements ++ [.insertCustomer] ∧
      (PaymentSucceeded app env r).app.DB.transactions = app.DB.transactions ∧
      (PaymentSucceeded app env r).app.DB.orders = app.DB.orders ∧
      ((PaymentSucceeded app env r).app.DB.customers = app.DB.customers ∨
        ∃ c : Customer,
          (PaymentSucceeded app env r).app.DB.customers = app.DB.customers ++ [c])) ∧
    (k = .transactionInsert →
      (PaymentSucceeded app env r).app.DB.statements =
        app.DB.statements ++ [.insertCustomer, .insertTransaction] ∧
      (∃ (customerID : Int) (c : Customer),
        env.insertCustomer = .inserted customerID ∧ c.ID = customerID ∧
        (PaymentSucceeded app env r).app.DB.customers = app.DB.customers ++ [c]) ∧
      (PaymentSucceeded app env r).app.DB.orders = app.DB.orders ∧
      ((PaymentSucceeded app env r).app.DB.transactions = app.DB.transactions ∨
        ∃ t : Transaction,
          (PaymentSucceeded app env r).app.DB.transactions = app.DB.transactions ++ [t])) ∧
    (k = .orderInsert →
      (PaymentSucceeded app env r).app.DB.statements =
        app.DB.statements ++ [.insertCustomer, .insertTransaction, .insertOrder] ∧
      (∃ (customerID txnID : Int) (c : Customer) (t : Transaction),
        env.insertCustomer = .inserted customerID ∧ env.insertTransaction = .inserted txnID ∧
        c.ID = customerID ∧ t.ID = txnID ∧
        (PaymentSucceeded app env r).app.DB.customers = app.DB.customers ++ [c] ∧
        (PaymentSucceeded app env r).app.DB.transactions = app.DB.transactions ++ [t]) ∧
      ((PaymentSucceeded app env r).app.DB.orders = app.DB.orders ∨
        ∃ o : OrderRow,
          (PaymentSucceeded app env r).app.DB.orders = app.DB.orders ++ [o])) := by
  have hf := GetTransactionData_frame app env.card r
  have hfail := GetTransactionData_failed app env.card r
  unfold PaymentSucceeded at h ⊢
  rcases hG : GetTransactionData app env.card r with ⟨res, app1, r1⟩
  rw [hG] at h hf hfail
  simp only at hf hfail
  obtain ⟨hDB, hS, -, -⟩ := hf
  cases res with
  | panicked => simp at h
  | failed s err =>
    simp only [Exit.failed.injEq] at h
    obtain ⟨rfl, rfl⟩ := h
    obtain ⟨hlog, hcases⟩ := hfail s err rfl
    rcases hcases with ⟨rfl, hl⟩ | ⟨rfl, hl⟩ | ⟨rfl, hl⟩ <;> simp [hDB, hS, hl, hlog]
  | ok txnData =>
    cases hc : env.insertCustomer with
    | execError e1 =>
      simp only [SaveCustomer, InsertCustomer, hc, Exit.failed.injEq] at h
      obtain ⟨rfl, rfl⟩ := h
      simp [SaveCustomer, InsertCustomer, hc, DBModel.sent, hDB, hS]
    | lastInsertIdError id e1 =>
      simp only [SaveCustomer, InsertCustomer, hc, Exit.failed.injEq] at h
      obtain ⟨rfl, rfl⟩ := h
      simp [SaveCustomer, InsertCustomer, hc, DBModel.sent, hDB, hS]
    | inserted customerID =>
      cases ht : env.insertTransaction with
      | execError e1 =>
        simp only [SaveCustomer, InsertCustomer, SaveTransaction, InsertTransaction, hc, ht,
          Exit.failed.injEq] at h
        obtain ⟨rfl, rfl⟩ := h
        simp [SaveCustomer, InsertCustomer, SaveTransaction, InsertTransaction, hc, ht,
          DBModel.sent, hDB, hS]
      | lastInsertIdError id e1 =>
        simp only [SaveCustomer, InsertCustomer, SaveTransaction, InsertTransaction, hc, ht,
          Exit.failed.injEq] at h
        obtain ⟨rfl, rfl⟩ := h
        simp [SaveCustomer, InsertCustomer, SaveTransaction, InsertTransaction, hc, ht,
          DBModel.sent, hDB, hS]
      | inserted txnID =>
        cases ho : env.insertOrder with
        | execError e1 =>
          simp only [SaveCustomer, InsertCustomer, SaveTransaction, InsertTransaction, SaveOrder,
            InsertOrder, hc, ht, ho, Exit.failed.injEq] at h
          obtain ⟨rfl, rfl⟩ := h
          simp [SaveCustomer, InsertCustomer, SaveTransaction, InsertTransaction, SaveOrder,
            InsertOrder, hc, ht, ho, DBModel.sent, hDB, hS]
        | lastInsertIdError id e1 =>
          simp only [SaveCustomer, InsertCustomer, SaveTransaction, InsertTransaction, SaveOrder,
            InsertOrder, hc, ht, ho, Exit.failed.injEq] at h
          obtain ⟨rfl, rfl⟩ := h
          simp [SaveCustomer, InsertCustomer, SaveTransaction, InsertTransaction, SaveOrder,
            InsertOrder, hc, ht, ho, DBModel.sent, hDB, hS]
        | inserted orderID =>
          simp [SaveCustomer, InsertCustomer, SaveTransaction, InsertTransaction, SaveOrder,
            InsertOrder, hc, ht, ho] at h

theorem PaymentSucceeded_exit_of_stepFails (app : application) (env : Env) (r : Request)
    (k : Step) (e : Error) (h : stepFails env r k e) :
    (PaymentSucceeded app env r).exit = .failed k e := by
  unfold PaymentSucceeded GetTransactionData
  rcases hpf : ParseForm r with ⟨r1, pe⟩
  cases k <;> simp only [stepFails, lookupsSucceed, insertFails, hpf] at h
  · subst h
    simp
  · obtain ⟨rfl, hpi⟩ := h
    simp [hpi]
  · obtain ⟨rfl, ⟨pi, hpi⟩, hpm⟩ := h
    simp [hpi, hpm]
  · obtain ⟨⟨rfl, pi, pm, pmCard, charge, rest, hpi, hpm, hc, hch⟩, hins⟩ := h
    rcases hins with hins | ⟨id, hins⟩ <;>
      simp [hpi, hpm, hc, hch, SaveCustomer, InsertCustomer, hins]
  · obtain ⟨⟨rfl, pi, pm, pmCard, charge, rest, hpi, hpm, hc, hch⟩, ⟨cid, h1⟩, hins⟩ := h
    rcases hins with hins | ⟨id, hins⟩ <;>
      simp [hpi, hpm, hc, hch, SaveCustomer, InsertCustomer, SaveTransaction,
        InsertTransaction, h1, hins]
  · obtain ⟨⟨rfl, pi, pm, pmCard, charge, rest, hpi, hpm, hc, hch⟩, ⟨cid, h1⟩, ⟨tid, h2⟩,
      hins⟩ := h
    rcases hins with hins | ⟨id, hins⟩ <;>
      simp [hpi, hpm, hc, hch, SaveCustomer, InsertCustomer, SaveTransaction,
        InsertTransaction, SaveOrder, InsertOrder, h1, h2, hins]

/-- Claim C5: for every step k of the checkout sequence (form parse,
payment-intent lookup, payment-method lookup, customer insert, transaction
insert, order insert), if the environment makes step k fail with an error, every
earlier step having succeeded, then PaymentSucceeded leaves through the early
return of step k: the session is unchanged, no redirect is written, the error
is logged, and no later step runs (the processor calls and the statements sent
to the database stop at step k).  Rows inserted by the earlier steps stay in
the store: after a failed transaction insert the customer table holds the new
customer row and the order table is unchanged; after a failed order insert the
new customer row and the new transaction row are both present. -/
theorem C5_failed_step_aborts (app : application) (env : Env) (r : Request) (k : Step)
    (e : Error) (h : stepFails env r k e) :
    (PaymentSucceeded app env r).exit = .failed k e ∧
    (PaymentSucceeded app env r).app.Session = app.Session ∧
    (PaymentSucceeded app env r).redirect = none ∧
    e ∈ (PaymentSucceeded app env r).app.errorLog ∧
    (PaymentSucceeded app env r).app.DB.widgets = app.DB.widgets ∧
    (k = .formParse →
      (PaymentSucceeded app env r).app.lookups = app.lookups ∧
      (PaymentSucceeded app env r).app.DB = app.DB) ∧
    (k = .paymentIntentLookup →
      (PaymentSucceeded app env r).app.lookups =
        app.lookups ++ [.paymentIntent (formGet (ParseForm r).1.Form "payment_intent")] ∧
      (PaymentSucceeded app env r).app.DB = app.DB) ∧
    (k = .paymentMethodLookup →
      (PaymentSucceeded app env r).app.lookups =
        app.lookups ++
          [.paymentIntent (formGet (ParseForm r).1.Form "payment_intent"),
           .paymentMethod (formGet (ParseForm r).1.Form "payment_method")] ∧
      (PaymentSucceeded app env r).app.DB = app.DB) ∧
    (k = .customerInsert →
      (PaymentSucceeded app env r).app.DB.statements =
        app.DB.statements ++ [.insertCustomer] ∧
      (PaymentSucceeded app env r).app.DB.transactions = app.DB.transactions ∧
      (PaymentSucceeded app env r).app.DB.orders = app.DB.orders ∧
      ((PaymentSucceeded app env r).app.DB.customers = app.DB.customers ∨
        ∃ c : Customer,
          (PaymentSucceeded app env r).app.DB.customers = app.DB.customers ++ [c])) ∧
    (k = .transactionInsert →
      (PaymentSucceeded app env r).app.DB.statements =
        app.DB.statements ++ [.insertCustomer, .insertTransaction] ∧
      (∃ (customerID : Int) (c : Customer),
        env.insertCustomer = .inserted customerID ∧ c.ID = customerID ∧
        (PaymentSucceeded app env r).app.DB.customers = app.DB.customers ++ [c]) ∧
      (PaymentSucceeded app env r).app.DB.orders = app.DB.orders ∧
      ((PaymentSucceeded app env r).app.DB.transactions = app.DB.transactions ∨
        ∃ t : Transaction,
          (PaymentSucceeded app env r).app.DB.transactions = app.DB.transactions ++ [t])) ∧
    (k = .orderInsert →
      (PaymentSucceeded app env r).app.DB.statements =
        app.DB.statements ++ [.insertCustomer, .insertTransaction, .insertOrder] ∧
      (∃ (customerID txnID : Int) (c : Customer) (t : Transaction),
        env.insertCustomer = .inserted customerID ∧ env.insertTransaction = .inserted txnID ∧
        c.ID = customerID ∧ t.ID = txnID ∧
        (PaymentSucceeded app env r).app.DB.customers = app.DB.customers ++ [c] ∧
        (PaymentSucceeded app env r).app.DB.transactions = app.DB.transactions ++ [t]) ∧
      ((PaymentSucceeded app env r).app.DB.orders = app.DB.orders ∨
        ∃ o : OrderRow,
          (PaymentSucceeded app env r).app.DB.orders = app.DB.orders ++ [o])) :=
  ⟨PaymentSucceeded_exit_of_stepFails app env r k e h,
    PaymentSucceeded_failed_frame app env r k e
      (PaymentSucceeded_exit_of_stepFails app env r k e h)⟩

/-- Witness for C5: one failing run for each of the six steps, on the sample
request (malformed for the form parse) and the sample environment with the
step in question failing. -/
theorem C5_failed_step_aborts_witness :
    (stepFails sampleEnv sampleRequestMalformed .formParse .formParse ∧
      (PaymentSucceeded sampleApp sampleEnv sampleRequestMalformed).exit = .failed .formParse .formParse ∧
      (PaymentSucceeded sampleApp sampleEnv sampleRequestMalformed).app.Session = sampleApp.Session ∧
      (PaymentSucceeded sampleApp sampleEnv sampleRequestMalformed).redirect = none) ∧
    (stepFails sampleEnvIntentFails sampleRequest .paymentIntentLookup .processor ∧
      (PaymentSucceeded sampleApp sampleEnvIntentFails sampleRequest).exit = .failed .paymentIntentLookup .processor ∧
      (PaymentSucceeded sampleApp sampleEnvIntentFails sampleRequest).app.Session = sampleApp.Session ∧
      (PaymentSucceeded sampleApp sampleEnvIntentFails sampleRequest).redirect = none) ∧
    (stepFails sampleEnvMethodFails sampleRequest .paymentMethodLookup .processor ∧
      (PaymentSucceeded sampleApp sampleEnvMethodFails sampleRequest).exit = .failed .paymentMethodLookup .processor ∧
      (PaymentSucceeded sampleApp sampleEnvMethodFails sampleRequest).app.Session = sampleApp.Session ∧
      (PaymentSucceeded sampleApp sampleEnvMethodFails sampleRequest).redirect = none) ∧
    (stepFails sampleEnvCustomerFails sampleRequest .customerInsert .database ∧
      (PaymentSucceeded sampleApp sampleEnvCustomerFails sampleRequest).exit = .failed .customerInsert .database ∧
      (PaymentSucceeded sampleApp sampleEnvCustomerFails sampleRequest).app.Session = sampleApp.Session ∧
      (PaymentSucceeded sampleApp sampleEnvCustomerFails sampleRequest).redirect = none) ∧
    (stepFails sampleEnvTxnFails sampleRequest .transactionInsert .database ∧
      (PaymentSucceeded sampleApp sampleEnvTxnFails sampleRequest).exit = .failed .transactionInsert .database ∧
      (PaymentSucceeded sampleApp sampleEnvTxnFails sampleRequest).app.Session = sampleApp.Session ∧
      (PaymentSucceeded sampleApp sampleEnvTxnFails sampleRequest).redirect = none) ∧
    (stepFails sampleEnvOrderFails sampleRequest .orderInsert .lastInsertId ∧
      (PaymentSucceeded sampleApp sampleEnvOrderFails sampleRequest).exit = .failed .orderInsert .lastInsertId ∧
      (PaymentSucceeded sampleApp sampleEnvOrderFails sampleRequest).app.Session = sampleApp.Session ∧
      (PaymentSucceeded sampleApp sampleEnvOrderFails sampleRequest).redirect = none) := by
  refine ⟨?_, ?_, ?_, ?_, ?_, ?_⟩
  · have h : stepFails sampleEnv sampleRequestMalformed .formParse .formParse := by simp only [stepFails]; decide
    exact ⟨h, (C5_failed_step_aborts sampleApp sampleEnv sampleRequestMalformed .formParse .formParse h).1,
      (C5_failed_step_aborts sampleApp sampleEnv sampleRequestMalformed .formParse .formParse h).2.1,
      (C5_failed_step_aborts sampleApp sampleEnv sampleRequestMalformed .formParse .formParse h).2.2.1⟩
  · have h : stepFails sampleEnvIntentFails sampleRequest .paymentIntentLookup .processor := by simp only [stepFails]; exact ⟨by decide, rfl⟩
    exact ⟨h, (C5_failed_step_aborts sampleApp sampleEnvIntentFails sampleRequest .paymentIntentLookup .processor h).1,
      (C5_failed_step_aborts sampleApp sampleEnvIntentFails sampleRequest .paymentIntentLookup .processor h).2.1,
      (C5_failed_step_aborts sampleApp sampleEnvIntentFails sampleRequest .paymentIntentLookup .processor h).2.2.1⟩
  · have h : stepFails sampleEnvMethodFails sampleRequest .paymentMethodLookup .processor := by simp only [stepFails]; exact ⟨by decide, ⟨_, rfl⟩, rfl⟩
    exact ⟨h, (C5_failed_step_aborts sampleApp sampleEnvMethodFails sampleRequest .paymentMethodLookup .processor h).1,
      (C5_failed_step_aborts sampleApp sampleEnvMethodFails sampleRequest .paymentMethodLookup .processor h).2.1,
      (C5_failed_step_aborts sampleApp sampleEnvMethodFails sampleRequest .paymentMethodLookup .processor h).2.2.1⟩
  · have h : stepFails sampleEnvCustomerFails sampleRequest .customerInsert .database := by
      simp only [stepFails, lookupsSucceed, insertFails]
      exact ⟨⟨by decide, { Amount := 2000, Charges := some [{ ID := "ch_1" }] },
        { Card := some { Last4 := "4242", ExpMonth := 12, ExpYear := 2030 } },
        { Last4 := "4242", ExpMonth := 12, ExpYear := 2030 }, { ID := "ch_1" }, [], rfl, rfl, rfl,
        rfl⟩, Or.inl rfl⟩
    exact ⟨h, (C5_failed_step_aborts sampleApp sampleEnvCustomerFails sampleRequest .customerInsert .database h).1,
      (C5_failed_step_aborts sampleApp sampleEnvCustomerFails sampleRequest .customerInsert .database h).2.1,
      (C5_failed_step_aborts sampleApp sampleEnvCustomerFails sampleRequest .customerInsert .database h).2.2.1⟩
  · have h : stepFails sampleEnvTxnFails sampleRequest .transactionInsert .database := by
      simp only [stepFails, lookupsSucceed, insertFails]
      exact ⟨⟨by decide, { Amount := 2000, Charges := some [{ ID := "ch_1" }] },
        { Card := some { Last4 := "4242", ExpMonth := 12, ExpYear := 2030 } },
        { Last4 := "4242", ExpMonth := 12, ExpYear := 2030 }, { ID := "ch_1" }, [], rfl, rfl, rfl,
        rfl⟩, ⟨7, rfl⟩, Or.inl rfl⟩
    exact ⟨h, (C5_failed_step_aborts sampleApp sampleEnvTxnFails sampleRequest .transactionInsert .database h).1,
      (C5_failed_step_aborts sampleApp sampleEnvTxnFails sampleRequest .transactionInsert .database h).2.1,
      (C5_failed_step_aborts sampleApp sampleEnvTxnFails sampleRequest .transactionInsert .database h).2.2.1⟩
  · have h : stepFails sampleEnvOrderFails sampleRequest .orderInsert .lastInsertId := by
      simp only [stepFails, lookupsSucceed, insertFails]
      exact ⟨⟨by decide, { Amount := 2000, Charges := some [{ ID := "ch_1" }] },
        { Card := some { Last4 := "4242", ExpMonth := 12, ExpYear := 2030 } },
        { Last4 := "4242", ExpMonth := 12, ExpYear := 2030 }, { ID := "ch_1" }, [], rfl, rfl, rfl,
        rfl⟩, ⟨7, rfl⟩, ⟨8, rfl⟩, Or.inr ⟨9, rfl⟩⟩
    exact ⟨h, (C5_failed_step_aborts sampleApp sampleEnvOrderFails sampleRequest .orderInsert .lastInsertId h).1,
      (C5_failed_step_aborts sampleApp sampleEnvOrderFails sampleRequest .orderInsert .lastInsertId h).2.1,
      (C5_failed_step_aborts sampleApp sampleEnvOrderFails sampleRequest .orderInsert .lastInsertId h).2.2.1⟩

/-- Evaluation of the failed transaction insert on the sample request: the new
customer row stays and no order row is created. -/
theorem PaymentSucceeded_txn_insert_fails_sample :
    (PaymentSucceeded sampleApp sampleEnvTxnFails sampleRequest).app.DB.customers =
      [{ ID := 7, FirstName := "Ada", LastName := "Lovelace", Email := "ada@example.com",
         CreatedAt := 100, UpdatedAt := 101 }] ∧
    (PaymentSucceeded sampleApp sampleEnvTxnFails sampleRequest).app.DB.transactions = [] ∧
    (PaymentSucceeded sampleApp sampleEnvTxnFails sampleRequest).app.DB.orders = [] ∧
    (PaymentSucceeded sampleApp sampleEnvTxnFails sampleRequest).app.Session = [] ∧
    (PaymentSucceeded sampleApp sampleEnvTxnFails sampleRequest).redirect = none := by
  decide

/-- On a request whose form has not been parsed yet, a successful checkout
stores widget id 0 in the order row, whatever product id was posted. -/
theorem PaymentSucceeded_widgetID_unparsed (app : application) (env : Env) (r : Request)
    (hform : r.Form = none) (h : (PaymentSucceeded app env r).exit = .redirected) :
    ∃ o : OrderRow,
      (PaymentSucceeded app env r).app.DB.orders = app.DB.orders ++ [o] ∧ o.WidgetID = 0 ∧
      o.Quantity = 1 := by
  obtain ⟨txnData, customerID, txnID, orderID, -, -, -, -, -, -, hO, -, -⟩ :=
    PaymentSucceeded_redirected app env r h
  refine ⟨_, hO, ?_, rfl⟩
  simp only [hform, formGet]
  decide

/-- On a request whose form was parsed before the handler ran, a successful
checkout stores the integer value of the posted product id. -/
theorem PaymentSucceeded_widgetID_parsed (app : application) (env : Env) (r : Request)
    (form : Values) (hform : r.Form = some form)
    (h : (PaymentSucceeded app env r).exit = .redirected) :
    ∃ o : OrderRow,
      (PaymentSucceeded app env r).app.DB.orders = app.DB.orders ++ [o] ∧
      o.WidgetID = (Atoi (formGet (some form) "product_id")).1 ∧ o.Quantity = 1 := by
  obtain ⟨txnData, customerID, txnID, orderID, -, -, -, -, -, -, hO, -, -⟩ :=
    PaymentSucceeded_redirected app env r h
  exact ⟨_, hO, by simp only [hform], rfl⟩


/-! ## Theorems: the order queries -/

theorem filter_key_eq_nil {β : Type} (table : List β) (key : β → Int) (k : Int)
    (h : k ∉ table.map key) : table.filter (fun b => key b == k) = [] := by
  rw [List.filter_eq_nil_iff]
  intro b hb hk
  exact h (List.mem_map.mpr ⟨b, hb, by simpa using hk⟩)

theorem leftMatches_unique {β : Type} (table : List β) (key : β → Int) (k : Int)
    (h : (table.map key).Nodup) :
    leftMatches table (fun b => key b == k) = [table.find? (fun b => key b == k)] := by
  induction table with
  | nil => simp [leftMatches]
  | cons a l ih =>
    rw [List.map_cons, List.nodup_cons] at h
    by_cases hk : key a = k
    · have hnil : l.filter (fun b => key b == k) = [] :=
        filter_key_eq_nil l key k (by rw [← hk]; exact h.1)
      simp [leftMatches, List.filter_cons, hk, hnil]
    · have ih1 := ih h.2
      simp only [leftMatches, List.filter_cons, List.find?_cons] at ih1 ⊢
      simp only [beq_iff_eq, hk, if_false]
      have hb : (key a == k) = false := by simpa using hk
      simp only [hb]
      exact ih1

theorem joinOrders_eq_map (m : DBModel) (h : uniqueKeys m) :
    joinOrders m = m.orders.map (joinRow m) := by
  obtain ⟨hw, ht, hc⟩ := h
  have ew : ∀ k, leftMatches m.widgets (fun w => w.ID == k) =
      [m.widgets.find? (fun w => w.ID == k)] :=
    fun k => leftMatches_unique m.widgets (fun w => w.ID) k hw
  have et : ∀ k, leftMatches m.transactions (fun t => t.ID == k) =
      [m.transactions.find? (fun t => t.ID == k)] :=
    fun k => leftMatches_unique m.transactions (fun t => t.ID) k ht
  have ec : ∀ k, leftMatches m.customers (fun c => c.ID == k) =
      [m.customers.find? (fun c => c.ID == k)] :=
    fun k => leftMatches_unique m.customers (fun c => c.ID) k hc
  unfold joinOrders
  simp only [ew, et, ec, List.flatMap_cons, List.flatMap_nil, List.append_nil, List.map_cons,
    List.map_nil]
  generalize m.orders = os
  induction os with
  | nil => rfl
  | cons o os ih => simp [List.flatMap_cons, ih, joinRow]

theorem any_recurring_eq_find (l : List Widget) (k : Int) (b : Bool)
    (h : (l.map (fun w => w.ID)).Nodup) :
    (l.any fun w => w.ID == k && w.IsRecurring == b) =
      (match l.find? (fun w => w.ID == k) with
        | none => false
        | some w => w.IsRecurring == b) := by
  induction l with
  | nil => rfl
  | cons a l ih =>
    rw [List.map_cons, List.nodup_cons] at h
    by_cases hk : a.ID = k
    · have hno : (l.any fun w => w.ID == k && w.IsRecurring == b) = false := by
        rw [List.any_eq_false]
        intro w hw hcon
        simp only [Bool.and_eq_true, beq_iff_eq] at hcon
        exact h.1 (List.mem_map.mpr ⟨w, hw, by rw [hcon.1, hk]⟩)
      simp [List.any_cons, List.find?_cons, hk, hno]
    · have hb : (a.ID == k) = false := by simpa using hk
      simp only [List.any_cons, List.find?_cons, hb, Bool.false_and, Bool.false_or]
      exact ih h.2

theorem isRecurringIs_joinRow (m : DBModel) (b : Bool) (o : OrderRow)
    (h : (m.widgets.map (fun w => w.ID)).Nodup) :
    isRecurringIs (if b then 1 else 0) (joinRow m o) =
      (m.widgets.any fun w => w.ID == o.WidgetID && w.IsRecurring == b) := by
  rw [any_recurring_eq_find m.widgets o.WidgetID b h]
  unfold isRecurringIs joinRow
  simp only
  cases m.widgets.find? (fun w => w.ID == o.WidgetID) with
  | none => rfl
  | some w =>
    simp only
    cases b <;> cases hr : w.IsRecurring <;> simp

theorem filter_joinOrders (m : DBModel) (b : Bool) (h : uniqueKeys m) :
    (joinOrders m).filter (isRecurringIs (if b then 1 else 0)) =
      (ordersOfType m b).map (joinRow m) := by
  rw [joinOrders_eq_map m h, List.filter_map, ordersOfType]
  congr 1
  apply List.filter_congr
  intro o _
  exact isRecurringIs_joinRow m b o h.1

theorem orderOrsubsOf_typeName (b : Bool) :
    orderOrsubsOf (typeName b) = some (if b then 1 else 0) := by
  cases b <;> decide

theorem scanOrder_ok_iff (r : JoinedRow) :
    (scanOrder r).2 = none ↔ r.w.isSome ∧ r.t.isSome ∧ r.c.isSome := by
  unfold scanOrder
  cases r.w <;> cases r.t <;> cases r.c <;> simp

theorem scanOrder_columns (r : JoinedRow) : (scanOrder r).1.columns = r.o := by
  unfold scanOrder Order.columns
  cases r.w <;> cases r.t <;> cases r.c <;> rfl

theorem scanRows_ok_iff (rows : List JoinedRow) (os : List Order) :
    scanRows rows = .ok os ↔
      (∀ r ∈ rows, (scanOrder r).2 = none) ∧ os = rows.map (fun r => (scanOrder r).1) := by
  induction rows generalizing os with
  | nil =>
    simp only [scanRows, Except.ok.injEq, List.not_mem_nil, false_implies, implies_true,
      List.map_nil, true_and]
    exact eq_comm
  | cons r rs ih =>
    unfold scanRows
    rcases hs : scanOrder r with ⟨o, _ | e⟩
    · simp only
      cases hrs : scanRows rs with
      | error e =>
        simp only [reduceCtorEq, List.mem_cons, forall_eq_or_imp, hs, true_and, List.map_cons,
          false_iff, not_and]
        intro hall _
        have := (ih (rs.map fun r => (scanOrder r).1)).mpr ⟨hall, rfl⟩
        rw [hrs] at this
        cases this
      | ok os1 =>
        obtain ⟨h1, h2⟩ := (ih os1).mp hrs
        simp only [Except.ok.injEq, List.mem_cons, forall_eq_or_imp, hs, true_and,
          List.map_cons]
        constructor
        · intro h
          exact ⟨h1, by rw [← h, h2]⟩
        · intro h
          rw [h.2, h2]
    · simp [hs]

theorem scanOrder_CreatedAt (r : JoinedRow) : (scanOrder r).1.CreatedAt = r.o.CreatedAt :=
  congrArg (fun o => o.CreatedAt) (scanOrder_columns r)

theorem mem_ordersOfType (m : DBModel) (b : Bool) (o : OrderRow) (h : o ∈ ordersOfType m b) :
    o ∈ m.orders ∧ ∃ w ∈ m.widgets, w.ID = o.WidgetID ∧ w.IsRecurring = b := by
  unfold ordersOfType at h
  rw [List.mem_filter, List.any_eq_true] at h
  obtain ⟨ho, w, hw, hcond⟩ := h
  simp only [Bool.and_eq_true, beq_iff_eq] at hcond
  exact ⟨ho, w, hw, hcond.1, hcond.2⟩

theorem scanOrder_joinRow_ok (m : DBModel) (o : OrderRow) (ho : o ∈ m.orders)
    (hw : ∃ w ∈ m.widgets, w.ID = o.WidgetID) (hr : referencesResolve m) :
    (scanOrder (joinRow m o)).2 = none := by
  obtain ⟨⟨t, ht, hte⟩, ⟨c, hc, hce⟩⟩ := hr o ho hw
  obtain ⟨w, hw1, hwe⟩ := hw
  rw [scanOrder_ok_iff]
  simp only [joinRow, List.find?_isSome, beq_iff_eq]
  exact ⟨⟨w, hw1, hwe⟩, ⟨t, ht, hte⟩, ⟨c, hc, hce⟩⟩

theorem lex_total (x y p q : Nat) :
    (y < x ∨ (y = x ∧ p ≤ q)) ∨ (x < y ∨ (x = y ∧ q ≤ p)) := by
  omega

theorem lex_trans (x y z p q t : Nat) (h1 : y < x ∨ (y = x ∧ p ≤ q))
    (h2 : z < y ∨ (z = y ∧ q ≤ t)) : z < x ∨ (z = x ∧ p ≤ t) := by
  omega

theorem lex_le (x y p q : Nat) (h : y < x ∨ (y = x ∧ p ≤ q)) : y ≤ x := by
  omega

theorem lex_iff_of_ne (x y p q p1 q1 : Nat) (h : x ≠ y) :
    (y < x ∨ (y = x ∧ p ≤ q)) ↔ (y < x ∨ (y = x ∧ p1 ≤ q1)) := by
  omega

theorem mem_orderByCreatedAtDesc (rank : JoinedRow → Nat) (rows : List JoinedRow)
    (r : JoinedRow) : r ∈ orderByCreatedAtDesc rank rows ↔ r ∈ rows :=
  (List.perm_insertionSort _ rows).mem_iff

theorem sorted_orderByCreatedAtDesc (rank : JoinedRow → Nat) (rows : List JoinedRow) :
    (orderByCreatedAtDesc rank rows).Pairwise (fun a b => b.o.CreatedAt ≤ a.o.CreatedAt) := by
  haveI : IsTotal JoinedRow (fun a b =>
      b.o.CreatedAt < a.o.CreatedAt ∨ (b.o.CreatedAt = a.o.CreatedAt ∧ rank a ≤ rank b)) :=
    ⟨fun a b => lex_total _ _ _ _⟩
  haveI : IsTrans JoinedRow (fun a b =>
      b.o.CreatedAt < a.o.CreatedAt ∨ (b.o.CreatedAt = a.o.CreatedAt ∧ rank a ≤ rank b)) :=
    ⟨fun a b c hab hbc => lex_trans _ _ _ _ _ _ hab hbc⟩
  have h := List.sorted_insertionSort (fun a b : JoinedRow =>
    b.o.CreatedAt < a.o.CreatedAt ∨ (b.o.CreatedAt = a.o.CreatedAt ∧ rank a ≤ rank b)) rows
  exact List.Pairwise.imp (fun hab => lex_le _ _ _ _ hab) h

theorem orderedInsert_congr {α : Type} (r s : α → α → Prop) [DecidableRel r] [DecidableRel s]
    (a : α) (l : List α) (h : ∀ b ∈ l, (r a b ↔ s a b)) :
    l.orderedInsert r a = l.orderedInsert s a := by
  induction l with
  | nil => rfl
  | cons b l ih =>
    have hb := h b (List.mem_cons_self b l)
    have ih1 := ih (fun c hc => h c (List.mem_cons_of_mem b hc))
    by_cases hr : r a b
    · simp [List.orderedInsert, hr, hb.mp hr]
    · have hs : ¬ s a b := fun hs => hr (hb.mpr hs)
      simp [List.orderedInsert, hr, hs, ih1]

theorem insertionSort_congr {α : Type} (r s : α → α → Prop) [DecidableRel r] [DecidableRel s]
    (l : List α) (h : ∀ a ∈ l, ∀ b ∈ l, (r a b ↔ s a b)) :
    l.insertionSort r = l.insertionSort s := by
  induction l with
  | nil => rfl
  | cons a l ih =>
    have ih1 := ih (fun x hx y hy =>
      h x (List.mem_cons_of_mem a hx) y (List.mem_cons_of_mem a hy))
    simp only [List.insertionSort]
    rw [ih1]
    apply orderedInsert_congr
    intro b hb
    exact h a (List.mem_cons_self a l) b
      (List.mem_cons_of_mem a ((List.perm_insertionSort s l).mem_iff.mp hb))

theorem orderByCreatedAtDesc_rank_irrelevant (rank1 rank2 : JoinedRow → Nat)
    (rows : List JoinedRow) (h : (rows.map (fun r => r.o.CreatedAt)).Nodup) :
    orderByCreatedAtDesc rank1 rows = orderByCreatedAtDesc rank2 rows := by
  unfold orderByCreatedAtDesc
  apply insertionSort_congr
  intro a ha b hb
  by_cases hab : a.o.CreatedAt = b.o.CreatedAt
  · have heq : a = b := List.inj_on_of_nodup_map h ha hb hab
    subst heq
    simp
  · exact lex_iff_of_ne _ _ _ _ _ _ hab

theorem scanRows_sorted_wellFormed (m : DBModel) (b : Bool) (rank : JoinedRow → Nat)
    (hr : referencesResolve m) :
    scanRows (orderByCreatedAtDesc rank ((ordersOfType m b).map (joinRow m))) =
      .ok ((orderByCreatedAtDesc rank ((ordersOfType m b).map (joinRow m))).map
        (fun r => (scanOrder r).1)) := by
  rw [scanRows_ok_iff]
  refine ⟨?_, rfl⟩
  intro r hrm
  rw [mem_orderByCreatedAtDesc, List.mem_map] at hrm
  obtain ⟨o, ho, rfl⟩ := hrm
  obtain ⟨hom, w, hw, hwe, -⟩ := mem_ordersOfType m b o ho
  exact scanOrder_joinRow_ok m o hom ⟨w, hw, hwe⟩ hr

theorem GetAllOrders_wellFormed (m : DBModel) (b : Bool) (hk : uniqueKeys m)
    (hr : referencesResolve m) :
    ∃ orders : List Order,
      GetAllOrders m none (typeName b) = (.ok orders, m.sent .selectOrders) ∧
      (orders.map Order.columns).Perm (ordersOfType m b) ∧
      orders.Pairwise (fun x y => y.CreatedAt ≤ x.CreatedAt) := by
  have hscan := scanRows_sorted_wellFormed m b m.tieRank hr
  refine ⟨(orderByCreatedAtDesc m.tieRank ((ordersOfType m b).map (joinRow m))).map
    (fun r => (scanOrder r).1), ?_, ?_, ?_⟩
  · unfold GetAllOrders
    rw [orderOrsubsOf_typeName]
    simp only [filter_joinOrders m b hk, hscan]
  · rw [List.map_map]
    have hcol : (Order.columns ∘ fun r => (scanOrder r).1) = fun r : JoinedRow => r.o := by
      funext r
      exact scanOrder_columns r
    rw [hcol]
    have hperm := (List.perm_insertionSort (fun a c : JoinedRow =>
      c.o.CreatedAt < a.o.CreatedAt ∨ (c.o.CreatedAt = a.o.CreatedAt ∧ m.tieRank a ≤ m.tieRank c))
      ((ordersOfType m b).map (joinRow m))).map (fun r : JoinedRow => r.o)
    have hid : ((ordersOfType m b).map (joinRow m)).map (fun r : JoinedRow => r.o) =
        ordersOfType m b := by
      rw [List.map_map]
      exact List.map_id _
    rw [hid] at hperm
    exact hperm
  · rw [List.pairwise_map]
    refine (sorted_orderByCreatedAtDesc _ _).imp ?_
    intro a c hac
    rw [scanOrder_CreatedAt, scanOrder_CreatedAt]
    exact hac

/-- Claim C7, evaluated on a store that holds one order of a widget whose
recurring flag is unset, the order referencing a transaction id that matches no
transaction row: GetAllOrders with type order returns the scan error and no
list, so it does not return the orders whose widget has the flag unset. -/
theorem C7_dangling_reference_list_error :
    ordersOfType danglingTransactionStore false =
      [{ ID := 1, WidgetID := 3, TransactionID := 99, CustomerID := 1, StatusID := 1,
         Quantity := 1, Amount := 1000, CreatedAt := 10, UpdatedAt := 10 }] ∧
    (GetAllOrders danglingTransactionStore none "order").1 = .error .scanNull ∧
    ¬ ∃ orders : List Order,
      (GetAllOrders danglingTransactionStore none "order").1 = .ok orders ∧
      (orders.map Order.columns).Perm (ordersOfType danglingTransactionStore false) := by
  refine ⟨by decide, by decide, ?_⟩
  rintro ⟨orders, h, -⟩
  have h2 : (GetAllOrders danglingTransactionStore none "order").1 = .error .scanNull := by
    decide
  rw [h2] at h
  cases h

/-- In a store whose primary keys are unique and whose references resolve, and
when the database reports no error, GetAllOrders returns for each of the two
order types the orders whose widget has the matching recurring flag, each once,
sorted by CreatedAt in non-increasing order, whatever order the engine gives to
rows with equal CreatedAt. -/
theorem GetAllOrders_by_type_sorted (m : DBModel) (hk : uniqueKeys m)
    (hr : referencesResolve m) :
    (∃ orders : List Order,
      (GetAllOrders m none "order").1 = .ok orders ∧
      (orders.map Order.columns).Perm (ordersOfType m false) ∧
      orders.Pairwise (fun x y => y.CreatedAt ≤ x.CreatedAt)) ∧
    (∃ subscriptions : List Order,
      (GetAllOrders m none "subscription").1 = .ok subscriptions ∧
      (subscriptions.map Order.columns).Perm (ordersOfType m true) ∧
      subscriptions.Pairwise (fun x y => y.CreatedAt ≤ x.CreatedAt)) := by
  obtain ⟨os, h1, h2, h3⟩ := GetAllOrders_wellFormed m false hk hr
  obtain ⟨ss, g1, g2, g3⟩ := GetAllOrders_wellFormed m true hk hr
  exact ⟨⟨os, by rw [show "order" = typeName false from rfl, h1], h2, h3⟩,
    ⟨ss, by rw [show "subscription" = typeName true from rfl, g1], g2, g3⟩⟩

theorem wrapInt64_of_range (x : Int) (h0 : 0 ≤ x) (h1 : x ≤ maxInt64) : wrapInt64 x = x := by
  unfold wrapInt64
  unfold maxInt64 at h1
  omega

theorem scanRows_take_drop (rows : List JoinedRow) (all : List Order) (a n : Nat)
    (h : scanRows rows = .ok all) :
    scanRows ((rows.drop a).take n) = .ok ((all.drop a).take n) := by
  rw [scanRows_ok_iff] at h ⊢
  obtain ⟨h1, h2⟩ := h
  refine ⟨fun r hr => h1 r (List.mem_of_mem_drop (List.mem_of_mem_take hr)), ?_⟩
  rw [h2, List.map_take, List.map_drop]

theorem countedRows_eq_map (m : DBModel) (b : Bool)
    (hw : (m.widgets.map (fun w => w.ID)).Nodup) :
    countedRows m (if b then 1 else 0) =
      (ordersOfType m b).map
        (fun o => (o, m.widgets.find? (fun w => w.ID == o.WidgetID))) := by
  have ew : ∀ k, leftMatches m.widgets (fun w => w.ID == k) =
      [m.widgets.find? (fun w => w.ID == k)] :=
    fun k => leftMatches_unique m.widgets (fun w => w.ID) k hw
  have hflat : (m.orders.flatMap fun o =>
      (leftMatches m.widgets (fun w => w.ID == o.WidgetID)).map fun w => (o, w)) =
      m.orders.map (fun o => (o, m.widgets.find? (fun w => w.ID == o.WidgetID))) := by
    simp only [ew, List.map_cons, List.map_nil]
    generalize m.orders = os
    induction os with
    | nil => rfl
    | cons o os ih => simp [List.flatMap_cons, ih]
  unfold countedRows
  rw [hflat, List.filter_map, ordersOfType]
  congr 1
  apply List.filter_congr
  intro o _
  have h1 := isRecurringIs_joinRow m b o hw
  unfold isRecurringIs joinRow at h1
  simp only at h1
  simp only [Function.comp]
  exact h1

theorem countedRows_length (m : DBModel) (b : Bool)
    (hw : (m.widgets.map (fun w => w.ID)).Nodup) :
    (countedRows m (if b then 1 else 0)).length = (ordersOfType m b).length := by
  rw [countedRows_eq_map m b hw, List.length_map]

theorem tdiv_eq_floor (n : Nat) (P : Int) (hP : 0 ≤ P) :
    Int.tdiv (n : Int) P = ⌊((n : ℚ) / (P : ℚ))⌋ := by
  obtain ⟨d, rfl⟩ := Int.eq_ofNat_of_zero_le hP
  rw [Int.tdiv_eq_ediv (Int.natCast_nonneg n) (Int.natCast_nonneg d)]
  have h := Rat.floor_intCast_div_natCast (n : Int) d
  simp only [Int.cast_natCast] at h ⊢
  exact h.symm

theorem GetAllOrdersPaginated_ok_values (m : DBModel) (pageFault countFault : Option Error)
    (b : Bool) (P page : Int) (orders : List Order) (lastPage total : Int)
    (hw : (m.widgets.map (fun w => w.ID)).Nodup)
    (h : (GetAllOrdersPaginated m pageFault countFault (typeName b) P page).1 =
      .ok (orders, lastPage, total)) :
    total = ((ordersOfType m b).length : Int) ∧
    lastPage = ⌊(((ordersOfType m b).length : ℚ) / (P : ℚ))⌋ ∧
    0 < P := by
  unfold GetAllOrdersPaginated at h
  rw [orderOrsubsOf_typeName] at h
  simp only at h
  cases pageFault with
  | some e => simp at h
  | none =>
    simp only at h
    cases hl : limitOffset P (wrapInt64 ((page - 1) * P))
        (orderByCreatedAtDesc m.tieRankLimit
          ((joinOrders m).filter (isRecurringIs (if b then 1 else 0)))) with
    | none => rw [hl] at h; simp at h
    | some rows =>
      rw [hl] at h
      simp only at h
      have hP : 0 ≤ P := by
        unfold limitOffset at hl
        split at hl
        · cases hl
        · omega
      cases hs : scanRows rows with
      | error e => rw [hs] at h; simp at h
      | ok os =>
        rw [hs] at h
        simp only at h
        cases countFault with
        | some e => simp at h
        | none =>
          simp only at h
          by_cases hz : P = 0
          · simp [hz] at h
          · simp only [hz, if_false, Result.ok.injEq, Prod.mk.injEq] at h
            obtain ⟨-, h2, h3⟩ := h
            rw [countedRows_length m b hw] at h2 h3
            exact ⟨h3.symm, by rw [← h2, tdiv_eq_floor _ _ hP], by omega⟩

theorem GetAllOrdersPaginated_of_scan (m : DBModel) (b : Bool) (P page : Int)
    (orders : List Order) (hk : uniqueKeys m) (hP : 1 ≤ P) (hp : 1 ≤ page)
    (hoff : (page - 1) * P ≤ maxInt64)
    (hscan : scanRows
      (((orderByCreatedAtDesc m.tieRankLimit ((ordersOfType m b).map (joinRow m))).drop
        ((page - 1) * P).toNat).take P.toNat) = .ok orders) :
    GetAllOrdersPaginated m none none (typeName b) P page =
      (.ok (orders, Int.tdiv ((ordersOfType m b).length : Int) P,
        ((ordersOfType m b).length : Int)),
       (m.sent .selectOrdersPage).sent .countOrders) := by
  have hoff0 : 0 ≤ (page - 1) * P := Int.mul_nonneg (by omega) (by omega)
  have hz : P ≠ 0 := by omega
  unfold GetAllOrdersPaginated
  rw [orderOrsubsOf_typeName, wrapInt64_of_range _ hoff0 hoff]
  have hlim : limitOffset P ((page - 1) * P)
      (orderByCreatedAtDesc m.tieRankLimit
        ((joinOrders m).filter (isRecurringIs (if b then 1 else 0)))) =
      some (((orderByCreatedAtDesc m.tieRankLimit ((ordersOfType m b).map (joinRow m))).drop
          ((page - 1) * P).toNat).take P.toNat) := by
    unfold limitOffset
    rw [if_neg (by omega), filter_joinOrders m b hk]
  simp only [hlim, hscan, countedRows_length m b hk.1, hz, if_false]

/-- Claim C3, counterexample: the page size -2 is non-zero and the sample store
holds N = 3 orders of type order, but the database refuses the negative LIMIT
and the call returns the error (with last page 0 and total 0 in the code), not
the floor of 3 / -2, which is -2, and not the total 3; likewise for page size 10
on the store whose order references a missing transaction, where N = 1 and the
call returns the scan error. -/
theorem C3_counterexample :
    ((ordersOfType sampleStore false).length = 3 ∧
      (GetAllOrdersPaginated sampleStore none none "order" (-2) 1).1 = .err .database ∧
      ⌊((3 : ℚ) / (((-2 : Int)) : ℚ))⌋ = -2) ∧
    ((ordersOfType danglingTransactionStore false).length = 1 ∧
      (GetAllOrdersPaginated danglingTransactionStore none none "order" 10 1).1 =
        .err .scanNull) ∧
    ¬ ∃ orders : List Order,
      (GetAllOrdersPaginated sampleStore none none "order" (-2) 1).1 =
        .ok (orders, ⌊((3 : ℚ) / (((-2 : Int)) : ℚ))⌋, 3) := by
  refine ⟨⟨by decide, by decide, ?_⟩, ⟨by decide, by decide⟩, ?_⟩
  · rw [Int.floor_eq_iff]
    constructor <;> norm_num
  · rintro ⟨orders, h⟩
    have h2 : (GetAllOrdersPaginated sampleStore none none "order" (-2) 1).1 =
        .err .database := by decide
    rw [h2] at h
    cases h

/-- Claim C3, amended: for both order types, every page size P >= 1 and every
page number p >= 1 whose offset (p - 1) * P fits a 64-bit int, in a store with
unique primary keys in which every order that has a widget row also has its
transaction row and its customer row, and when the database reports no error,
GetAllOrdersPaginated returns without error, with the floor of N / P as its
last-page value and N as its total-record value, N being the number of stored
orders whose widget has the selected recurring flag. -/
theorem C3_last_page_and_total (m : DBModel) (b : Bool) (P page : Int)
    (hk : uniqueKeys m) (hr : referencesResolve m) (hP : 1 ≤ P) (hp : 1 ≤ page)
    (hoff : (page - 1) * P ≤ maxInt64) :
    ∃ orders : List Order,
      (GetAllOrdersPaginated m none none (typeName b) P page).1 =
        .ok (orders, ⌊(((ordersOfType m b).length : ℚ) / (P : ℚ))⌋,
          ((ordersOfType m b).length : Int)) := by
  have hscan := scanRows_take_drop _ _ ((page - 1) * P).toNat P.toNat
    (scanRows_sorted_wellFormed m b m.tieRankLimit hr)
  have h := GetAllOrdersPaginated_of_scan m b P page _ hk hP hp hoff hscan
  refine ⟨(((orderByCreatedAtDesc m.tieRankLimit ((ordersOfType m b).map (joinRow m))).map
    (fun r => (scanOrder r).1)).drop ((page - 1) * P).toNat).take P.toNat, ?_⟩
  rw [h, tdiv_eq_floor _ _ (by omega)]

/-- Witness for the amended C3 on the sample store: three orders, page size 2,
second page; the call returns last page 1 and total 3. -/
theorem C3_last_page_and_total_witness :
    uniqueKeys sampleStore ∧ referencesResolve sampleStore ∧ (1 : Int) ≤ 2 ∧
    ((2 : Int) - 1) * 2 ≤ maxInt64 ∧
    (GetAllOrdersPaginated sampleStore none none "order" 2 2).1 =
      .ok (((GetAllOrders sampleStore none "order").1.toOption.getD []).drop 2, 1, 3) ∧
    ∃ orders : List Order,
      (GetAllOrdersPaginated sampleStore none none (typeName false) 2 2).1 =
        .ok (orders, ⌊(((ordersOfType sampleStore false).length : ℚ) / ((2 : Int) : ℚ))⌋,
          ((ordersOfType sampleStore false).length : Int)) :=
  ⟨by decide, by decide, by decide, by decide, by decide,
    C3_last_page_and_total sampleStore false 2 2 (by decide) (by decide) (by decide)
      (by decide) (by decide)⟩

/-- Claim C9, counterexample.  First, page size 2^32 and page number 2^32 + 1
are both at least 1, but the offset (p - 1) * P = 2^64 wraps to 0 in 64-bit
arithmetic: on the sample store the paginated call returns all three orders,
while the sub-list of GetAllOrders that starts at index 2^64 is empty.  Second,
on a store whose orders 1 and 2 have the same CreatedAt and an engine that
orders them differently in the query with LIMIT, GetAllOrders returns the
orders 3, 1, 2 while page 1 of size 2 holds the orders 3, 2. -/
theorem C9_counterexample :
    ((GetAllOrders sampleStore none "order").1.toOption.map (List.map (fun o => o.ID)) =
      some [2, 3, 1] ∧
    (∃ (orders : List Order) (lastPage total : Int),
      (GetAllOrdersPaginated sampleStore none none "order" 4294967296 4294967297).1 =
        .ok (orders, lastPage, total) ∧
      orders.map (fun o => o.ID) = [2, 3, 1] ∧
      orders ≠
        (((GetAllOrders sampleStore none "order").1.toOption.getD []).drop
          (((4294967297 : Int) - 1) * 4294967296).toNat).take (4294967296 : Int).toNat)) ∧
    ((GetAllOrders tiedStore none "order").1.toOption.map (List.map (fun o => o.ID)) =
      some [3, 1, 2] ∧
    (∃ (orders : List Order) (lastPage total : Int),
      (GetAllOrdersPaginated tiedStore none none "order" 2 1).1 =
        .ok (orders, lastPage, total) ∧
      orders.map (fun o => o.ID) = [3, 2] ∧
      orders ≠
        (((GetAllOrders tiedStore none "order").1.toOption.getD []).drop
          (((1 : Int) - 1) * 2).toNat).take (2 : Int).toNat)) := by
  refine ⟨⟨by decide, (GetAllOrders sampleStore none "order").1.toOption.getD [], 0, 3,
    by decide, by decide, by decide⟩, by decide,
    (match (GetAllOrdersPaginated tiedStore none none "order" 2 1).1 with
      | .ok res => res.1
      | _ => []), 1, 3, by decide, by decide, by decide⟩

/-- Claim C9, amended: for both order types, every page size P >= 1 and every
page number p >= 1 whose offset (p - 1) * P fits a 64-bit int, in a store with
unique primary keys in which no two orders of the selected type have the same
CreatedAt, when GetAllOrders returns a list without error and the database
reports no error to the paginated call, GetAllOrdersPaginated returns the
sub-list of that list that starts at index (p - 1) * P and has at most P
elements, and its total-record value is the length of that list, whatever
order the engine gives to tied rows in either query. -/
theorem C9_page_is_sublist (m : DBModel) (b : Bool) (P page : Int) (all : List Order)
    (hk : uniqueKeys m)
    (hd : ((ordersOfType m b).map (fun o => o.CreatedAt)).Nodup)
    (hP : 1 ≤ P) (hp : 1 ≤ page) (hoff : (page - 1) * P ≤ maxInt64)
    (hall : (GetAllOrders m none (typeName b)).1 = .ok all) :
    ∃ lastPage : Int,
      (GetAllOrdersPaginated m none none (typeName b) P page).1 =
        .ok ((all.drop ((page - 1) * P).toNat).take P.toNat, lastPage, (all.length : Int)) := by
  unfold GetAllOrders at hall
  rw [orderOrsubsOf_typeName] at hall
  simp only at hall
  cases hs : scanRows (orderByCreatedAtDesc m.tieRank
      ((joinOrders m).filter (isRecurringIs (if b then 1 else 0)))) with
  | error e => rw [hs] at hall; simp at hall
  | ok os =>
    rw [hs] at hall
    simp only [Except.ok.injEq] at hall
    subst hall
    rw [filter_joinOrders m b hk] at hs
    have hdr : (((ordersOfType m b).map (joinRow m)).map (fun r => r.o.CreatedAt)).Nodup := by
      rw [List.map_map]
      exact hd
    have hrows := orderByCreatedAtDesc_rank_irrelevant m.tieRankLimit m.tieRank
      ((ordersOfType m b).map (joinRow m)) hdr
    have hsub := scanRows_take_drop _ os ((page - 1) * P).toNat P.toNat hs
    rw [← hrows] at hsub
    have h := GetAllOrdersPaginated_of_scan m b P page _ hk hP hp hoff hsub
    have hlen : os.length = (ordersOfType m b).length := by
      rw [((scanRows_ok_iff _ _).mp hs).2, List.length_map]
      unfold orderByCreatedAtDesc
      rw [List.length_insertionSort, List.length_map]
    refine ⟨Int.tdiv ((ordersOfType m b).length : Int) P, ?_⟩
    rw [h, hlen]

/-- Witness for the amended C9 on the sample store: page size 2, page 2. -/
theorem C9_page_is_sublist_witness :
    uniqueKeys sampleStore ∧
    ((ordersOfType sampleStore false).map (fun o => o.CreatedAt)).Nodup ∧
    (1 : Int) ≤ 2 ∧ ((2 : Int) - 1) * 2 ≤ maxInt64 ∧
    (GetAllOrders sampleStore none (typeName false)).1 =
      .ok ((GetAllOrders sampleStore none "order").1.toOption.getD []) ∧
    ∃ lastPage : Int,
      (GetAllOrdersPaginated sampleStore none none (typeName false) 2 2).1 =
        .ok ((((GetAllOrders sampleStore none "order").1.toOption.getD []).drop
          (((2 : Int) - 1) * 2).toNat).take (2 : Int).toNat, lastPage,
          ((((GetAllOrders sampleStore none "order").1.toOption.getD []).length : Nat) : Int)) :=
  ⟨by decide, by decide, by decide, by decide, by decide,
    C9_page_is_sublist sampleStore false 2 2 _ (by decide) (by decide) (by decide) (by decide)
      (by decide) (by decide)⟩

theorem GetAllOrders_error_of_dangling (m : DBModel) (b : Bool) (o : OrderRow)
    (fault : Option Error) (hk : uniqueKeys m) (ho : o ∈ ordersOfType m b)
    (hd : (∀ t ∈ m.transactions, t.ID ≠ o.TransactionID) ∨
      (∀ c ∈ m.customers, c.ID ≠ o.CustomerID)) :
    ∃ e : Error, (GetAllOrders m fault (typeName b)).1 = .error e := by
  unfold GetAllOrders
  rw [orderOrsubsOf_typeName]
  cases fault with
  | some e => exact ⟨e, rfl⟩
  | none =>
    simp only
    cases hs : scanRows (orderByCreatedAtDesc m.tieRank
        ((joinOrders m).filter (isRecurringIs (if b then 1 else 0)))) with
    | error e => exact ⟨e, rfl⟩
    | ok os =>
      exfalso
      have hall := ((scanRows_ok_iff _ _).mp hs).1 (joinRow m o)
        (by
          rw [mem_orderByCreatedAtDesc, filter_joinOrders m b hk]
          exact List.mem_map_of_mem _ ho)
      rw [scanOrder_ok_iff] at hall
      obtain ⟨-, ht, hc⟩ := hall
      simp only [joinRow, List.find?_isSome, beq_iff_eq] at ht hc
      rcases hd with hd | hd
      · obtain ⟨t, htm, hte⟩ := ht
        exact hd t htm hte
      · obtain ⟨c, hcm, hce⟩ := hc
        exact hd c hcm hce

/-- Claim C4, evaluated on two stores that each hold one order of the one-off
widget, the first with a transaction id and the second with a customer id that
matches no row: the left join yields the order with NULL columns, the scan of
a NULL column into an int or string field fails, and GetAllOrders,
GetAllOrdersPaginated and GetOrderByID all return an error instead of the
order with zero-valued nested fields (the list calls return no order at all). -/
theorem C4_dangling_reference_scan_error :
    (joinOrders danglingTransactionStore).map (fun r => (r.o.ID, r.w.isSome, r.t, r.c.isSome)) =
      [(1, true, none, true)] ∧
    (GetAllOrders danglingTransactionStore none "order").1 = .error .scanNull ∧
    (GetAllOrdersPaginated danglingTransactionStore none none "order" 10 1).1 =
      .err .scanNull ∧
    (GetOrderByID danglingTransactionStore none 1).1.2 = some .scanNull ∧
    (joinOrders danglingCustomerStore).map (fun r => (r.o.ID, r.w.isSome, r.t.isSome, r.c)) =
      [(1, true, true, none)] ∧
    (GetAllOrders danglingCustomerStore none "order").1 = .error .scanNull ∧
    (GetAllOrdersPaginated danglingCustomerStore none none "order" 10 1).1 = .err .scanNull ∧
    (GetOrderByID danglingCustomerStore none 1).1.2 = some .scanNull := by
  decide

/-- Claim C8: a call of UpdateOrderStatus that the database executes returns no
error, leaves the widget, customer and transaction tables and the number and
positions of the order rows unchanged, gives every order row whose id is the
argument the new status and changes no other field of it, and leaves every
other order row unchanged; when no order has that id the four tables are
unchanged.  When the database reports an error, the error is returned and the
four tables are unchanged. -/
theorem C8_update_status_frame (m : DBModel) (id statusID : Int) :
    (UpdateOrderStatus m none id statusID).1 = none ∧
    (UpdateOrderStatus m none id statusID).2.widgets = m.widgets ∧
    (UpdateOrderStatus m none id statusID).2.customers = m.customers ∧
    (UpdateOrderStatus m none id statusID).2.transactions = m.transactions ∧
    (UpdateOrderStatus m none id statusID).2.orders.length = m.orders.length ∧
    (∀ (i : Nat) (o o1 : OrderRow), m.orders[i]? = some o →
      (UpdateOrderStatus m none id statusID).2.orders[i]? = some o1 →
      (o.ID = id →
        o1.StatusID = statusID ∧ o1.ID = o.ID ∧ o1.WidgetID = o.WidgetID ∧
        o1.TransactionID = o.TransactionID ∧ o1.CustomerID = o.CustomerID ∧
        o1.Quantity = o.Quantity ∧ o1.Amount = o.Amount ∧ o1.CreatedAt = o.CreatedAt ∧
        o1.UpdatedAt = o.UpdatedAt) ∧
      (o.ID ≠ id → o1 = o)) ∧
    ((∀ o ∈ m.orders, o.ID ≠ id) → (UpdateOrderStatus m none id statusID).2.orders = m.orders) ∧
    (∀ e : Error,
      (UpdateOrderStatus m (some e) id statusID).1 = some e ∧
      (UpdateOrderStatus m (some e) id statusID).2.widgets = m.widgets ∧
      (UpdateOrderStatus m (some e) id statusID).2.customers = m.customers ∧
      (UpdateOrderStatus m (some e) id statusID).2.transactions = m.transactions ∧
      (UpdateOrderStatus m (some e) id statusID).2.orders = m.orders) := by
  refine ⟨rfl, rfl, rfl, rfl, ?_, ?_, ?_, fun e => ⟨rfl, rfl, rfl, rfl, rfl⟩⟩
  · simp [UpdateOrderStatus, DBModel.sent]
  · intro i o o1 ho ho1
    simp only [UpdateOrderStatus, DBModel.sent, List.getElem?_map, ho, Option.map_some',
      Option.some.injEq] at ho1
    subst ho1
    constructor
    · intro hid
      simp [hid]
    · intro hid
      simp [hid]
  · intro hno
    simp only [UpdateOrderStatus, DBModel.sent]
    conv_rhs => rw [← List.map_id m.orders]
    apply List.map_congr_left
    intro o ho
    simp [hno o ho]

/-- Claim C10: for every order type other than order and subscription, whatever
the store, the page size (0 included), the page number and the answers the
database would give, GetAllOrders returns the empty list without error and
GetAllOrdersPaginated returns the empty list, last page 0 and total 0 without
error, and neither sends a statement to the database (the database, with its
record of statements sent, is returned as it was). -/
theorem C10_unknown_type_no_query (m : DBModel) (queryFault pageFault countFault : Option Error)
    (orderType : String) (pageSize page : Int)
    (h1 : orderType ≠ "order") (h2 : orderType ≠ "subscription") :
    GetAllOrders m queryFault orderType = (.ok [], m) ∧
    GetAllOrdersPaginated m pageFault countFault orderType pageSize page =
      (.ok ([], 0, 0), m) := by
  have h : orderOrsubsOf orderType = none := by
    unfold orderOrsubsOf
    rw [if_neg h1, if_neg h2]
  constructor
  · unfold GetAllOrders
    rw [h]
  · unfold GetAllOrdersPaginated
    rw [h]

/-- Witness for C10: order type refund, page size 0, a database that would
answer every statement with an error. -/
theorem C10_unknown_type_no_query_witness :
    "refund" ≠ "order" ∧ "refund" ≠ "subscription" ∧
    GetAllOrders sampleStore (some .database) "refund" = (.ok [], sampleStore) ∧
    GetAllOrdersPaginated sampleStore (some .database) (some .database) "refund" 0 1 =
      (.ok ([], 0, 0), sampleStore) :=
  ⟨by decide, by decide,
    C10_unknown_type_no_query sampleStore (some .database) (some .database) (some .database)
      "refund" 0 1 (by decide) (by decide)⟩

/-- Witness for C8 on the sample store: setting the status of order 2 to 5. -/
theorem C8_update_status_frame_witness :
    (UpdateOrderStatus sampleStore none 2 5).1 = none ∧
    (UpdateOrderStatus sampleStore none 2 5).2.widgets = sampleStore.widgets ∧
    (UpdateOrderStatus sampleStore none 2 5).2.orders.map (fun o => (o.ID, o.StatusID)) =
      [(1, 1), (2, 5), (3, 1), (4, 1)] :=
  ⟨(C8_update_status_frame sampleStore 2 5).1, (C8_update_status_frame sampleStore 2 5).2.1,
    by decide⟩

/-- Claim C11, counterexample: on the sample request the form parses, both
lookups succeed and the payment intent carries one charge, but the payment
method returned has no card; GetTransactionData dereferences the nil card and
ends in a run-time panic instead of returning. -/
theorem C11_counterexample :
    (ParseForm sampleRequest).2 = none ∧
    sampleCardWithoutCard.RetrievePaymentIntent
        (formGet (ParseForm sampleRequest).1.Form "payment_intent") =
      .ok { Amount := 2000, Charges := some [{ ID := "ch_1" }] } ∧
    sampleCardWithoutCard.GetPaymentMethod
        (formGet (ParseForm sampleRequest).1.Form "payment_method") =
      .ok { Card := none } ∧
    (GetTransactionData sampleApp sampleCardWithoutCard sampleRequest).1 = .panicked ∧
    ¬ ∃ txnData : TransactionData,
      (GetTransactionData sampleApp sampleCardWithoutCard sampleRequest).1 = .ok txnData := by
  refine ⟨by decide, by decide, by decide, by decide, ?_⟩
  rintro ⟨txnData, h⟩
  have h2 : (GetTransactionData sampleApp sampleCardWithoutCard sampleRequest).1 = .panicked := by
    decide
  rw [h2] at h
  cases h

/-- Claim C11, amended: for every request for which form parsing and both
processor lookups succeed, the returned payment intent carries at least one
charge and the returned payment method carries a card, GetTransactionData
returns a nil error (no panic: the index 0 into the charge list is in range) and
a TransactionData whose BackReturnCode is the ID of the first charge, whose
LastFour is that of the card, whose ExpiryMonth and ExpiryYear are those of the
card converted to int (equal to them whenever they fit a 64-bit int), and whose
name, email, identifier and currency fields are the posted form values. -/
theorem C11_transaction_data (app : application) (card : Processor) (r : Request)
    (pi : PaymentIntent) (pm : PaymentMethod) (pmCard : PaymentMethodCard) (charge : Charge)
    (rest : List Charge)
    (hp : (ParseForm r).2 = none)
    (hpi : card.RetrievePaymentIntent (formGet (ParseForm r).1.Form "payment_intent") = .ok pi)
    (hpm : card.GetPaymentMethod (formGet (ParseForm r).1.Form "payment_method") = .ok pm)
    (hch : pi.Charges = some (charge :: rest))
    (hc : pm.Card = some pmCard) :
    ∃ txnData : TransactionData,
      (GetTransactionData app card r).1 = .ok txnData ∧
      (charge :: rest)[0]? = some charge ∧
      txnData.BackReturnCode = charge.ID ∧
      txnData.LastFour = pmCard.Last4 ∧
      txnData.ExpiryMonth = wrapInt64 pmCard.ExpMonth ∧
      txnData.ExpiryYear = wrapInt64 pmCard.ExpYear ∧
      (0 ≤ pmCard.ExpMonth → pmCard.ExpMonth ≤ maxInt64 →
        txnData.ExpiryMonth = pmCard.ExpMonth) ∧
      (0 ≤ pmCard.ExpYear → pmCard.ExpYear ≤ maxInt64 → txnData.ExpiryYear = pmCard.ExpYear) ∧
      txnData.FirstName = formGet (ParseForm r).1.Form "first_name" ∧
      txnData.LastName = formGet (ParseForm r).1.Form "last_name" ∧
      txnData.Email = formGet (ParseForm r).1.Form "cardholder_email" ∧
      txnData.PaymentIntentID = formGet (ParseForm r).1.Form "payment_intent" ∧
      txnData.PaymentMethodID = formGet (ParseForm r).1.Form "payment_method" ∧
      txnData.PaymentCurrency = formGet (ParseForm r).1.Form "payment_currency" := by
  unfold GetTransactionData
  rcases hpf : ParseForm r with ⟨r1, e⟩
  rw [hpf] at hp hpi hpm
  simp only at hp hpi hpm
  subst hp
  simp only [hpi, hpm, hc, hch]
  exact ⟨_, rfl, by simp, rfl, rfl, rfl, rfl, fun h0 h1 => wrapInt64_of_range _ h0 h1,
    fun h0 h1 => wrapInt64_of_range _ h0 h1, rfl, rfl, rfl, rfl, rfl, rfl⟩

/-- Witness for the amended C11 on the sample request and the sample processor:
charge ch_1, card 4242 expiring 12/2030. -/
theorem C11_transaction_data_witness :
    (ParseForm sampleRequest).2 = none ∧
    (GetTransactionData sampleApp sampleCard sampleRequest).1 =
      .ok { FirstName := "Ada", LastName := "Lovelace", Email := "ada@example.com",
            PaymentIntentID := "pi_1", PaymentMethodID := "pm_1", PaymentAmount := 1000,
            PaymentCurrency := "usd", LastFour := "4242", ExpiryMonth := 12,
            ExpiryYear := 2030, BackReturnCode := "ch_1" } ∧
    ∃ txnData : TransactionData,
      (GetTransactionData sampleApp sampleCard sampleRequest).1 = .ok txnData ∧
      ([{ ID := "ch_1" }] : List Charge)[0]? = some { ID := "ch_1" } ∧
      txnData.BackReturnCode = "ch_1" ∧
      txnData.LastFour = "4242" ∧
      txnData.ExpiryMonth = wrapInt64 12 ∧
      txnData.ExpiryYear = wrapInt64 2030 ∧
      ((0 : Int) ≤ 12 → (12 : Int) ≤ maxInt64 → txnData.ExpiryMonth = 12) ∧
      ((0 : Int) ≤ 2030 → (2030 : Int) ≤ maxInt64 → txnData.ExpiryYear = 2030) ∧
      txnData.FirstName = formGet (ParseForm sampleRequest).1.Form "first_name" ∧
      txnData.LastName = formGet (ParseForm sampleRequest).1.Form "last_name" ∧
      txnData.Email = formGet (ParseForm sampleRequest).1.Form "cardholder_email" ∧
      txnData.PaymentIntentID = formGet (ParseForm sampleRequest).1.Form "payment_intent" ∧
      txnData.PaymentMethodID = formGet (ParseForm sampleRequest).1.Form "payment_method" ∧
      txnData.PaymentCurrency = formGet (ParseForm sampleRequest).1.Form "payment_currency" :=
  ⟨by decide, by decide,
    C11_transaction_data sampleApp sampleCard sampleRequest
      { Amount := 2000, Charges := some [{ ID := "ch_1" }] }
      { Card := some { Last4 := "4242", ExpMonth := 12, ExpYear := 2030 } }
      { Last4 := "4242", ExpMonth := 12, ExpYear := 2030 } { ID := "ch_1" } []
      (by decide) rfl rfl rfl rfl⟩

end GoStripe
